import Mathlib

/-!
The gin-openapi-validator package: error normalisation (`Decode`) and the handler that
consumes it.

A shallow embedding of `pkg/gin-openapi-validator/validationerror.go` and of the decision of
the handler of `pkg/gin-openapi-validator/validator.go` on a failed step.

* Go `string`s are Lean `String`s (sequences of Unicode scalar values); the functions of the
  Go `strings` package that the program calls are modelled on the character lists.
* A Go value of interface type `error` is a `GoError`; the nil interface is `GoError.nil`.
* A run-time panic (nil pointer dereference) is the `Except.error` outcome of the `Except Fault`
  monad; every function that can dereference a nil pointer returns in that monad.
* The methods of the collaborator library (kin-openapi: `Error()`, `RootCause()`,
  `JSONPointer()`) are embedded next to the data model, the functions of this repository after
  them. The library is the release line the repository builds against (`routers.RouteError`,
  lower-case messages, the parameter name rendered with `%q`). Values of type `interface{}` and
  schemas are kept by what the program observes of them: their `%v` rendering and the text the
  JSON encoder writes for them.
* Pointers to the library's error structs are taken to be non-nil when they sit in an `error`
  interface; the pointers `e.Parameter`, `e.RequestBody` and `innerErr.Schema` may be nil.
* The `fmt.Println` diagnostic of `convertRouteError` writes to standard output only and is
  not part of the model.
-/

namespace GinOpenapiValidator

/-! ## Go run-time and `strings` package -/

/-- Run-time faults of the Go program. -/
inductive Fault
  | nilDereference
deriving DecidableEq, Repr

deriving instance DecidableEq for Except

/-- Go `strings.HasPrefix`. -/
def HasPrefix (s pre : String) : Bool :=
  pre.data.isPrefixOf s.data

/-- Go `strings.HasSuffix`. -/
def HasSuffix (s suffix : String) : Bool :=
  suffix.data.isSuffixOf s.data

/-- Go `strings.TrimPrefix`. -/
def TrimPrefix (s pre : String) : String :=
  if HasPrefix s pre then ⟨s.data.drop pre.data.length⟩ else s

/-- Substring test on character lists (worker of `Contains`). -/
def containsChars (sub : List Char) : List Char → Bool
  | [] => sub.isPrefixOf []
  | c :: cs => sub.isPrefixOf (c :: cs) || containsChars sub cs

/-- Go `strings.Contains`. -/
def Contains (s substr : String) : Bool :=
  containsChars substr.data s.data

/-- Splitting a character list at every occurrence of the separator character. -/
def splitChars (sep : Char) : List Char → List (List Char)
  | [] => [[]]
  | c :: cs =>
    match splitChars sep cs with
    | [] => [[]]
    | part :: parts => if c = sep then [] :: part :: parts else (c :: part) :: parts

/-- Go `strings.Split` for a separator of one character (the program splits at `","`). -/
def Split (s : String) (sep : Char) : List String :=
  (splitChars sep s.data).map String.mk

/-- Go `strings.Join`. -/
def Join (elems : List String) (sep : String) : String :=
  String.intercalate sep elems

/-- Lower-case hexadecimal digit. -/
def hexDigit (n : Nat) : Char :=
  "0123456789abcdef".data.getD (n % 16) '0'

/-- Escape of one character by Go `strconv.Quote`. Code points above the ASCII range are taken
as printable (the Unicode tables of `strconv.IsPrint` are not reproduced). -/
def quoteRune (c : Char) : List Char :=
  if c = '"' ∨ c = '\\' then ['\\', c]
  else if c.toNat = 7 then ['\\', 'a']
  else if c.toNat = 8 then ['\\', 'b']
  else if c.toNat = 12 then ['\\', 'f']
  else if c.toNat = 10 then ['\\', 'n']
  else if c.toNat = 13 then ['\\', 'r']
  else if c.toNat = 9 then ['\\', 't']
  else if c.toNat = 11 then ['\\', 'v']
  else if c.toNat < 32 ∨ c.toNat = 127 then ['\\', 'x', hexDigit (c.toNat / 16), hexDigit c.toNat]
  else [c]

/-- Go `strconv.Quote`, the rendering of a string under the `%q` verb. -/
def strconvQuote (s : String) : String :=
  ⟨'"' :: (s.data.flatMap quoteRune ++ ['"'])⟩

/-! ## Data model of the collaborator library -/

/-- A Go value of type `interface{}` as the program observes it: nil, or a dynamic value given
by its rendering under the `%v` verb and by the text the JSON encoder writes for it. -/
inductive GoValue
  | nil
  | dyn (fmtV : String) (json : String)
deriving DecidableEq, Repr

/-- Rendering under `fmt.Sprintf("%v", v)`. -/
def GoValue.fmtV : GoValue → String
  | .nil => "<nil>"
  | .dyn s _ => s

/-- Text written by `json.Encoder.Encode` for the value. -/
def GoValue.encode : GoValue → String
  | .nil => "null\n"
  | .dyn _ j => j

/-- The fields of `openapi3.Parameter` the program reads. -/
structure Parameter where
  Name : String
  In : String
  Style : String
  Explode : Option Bool
deriving DecidableEq, Repr

/-- An `openapi3.RequestBody`; the program only tests the pointer for nil. -/
structure RequestBody where
  Required : Bool
deriving DecidableEq, Repr

/-- The fields of `openapi3.Schema` the program reads, with the text the JSON encoder writes
for the schema. -/
structure Schema where
  Enum : List GoValue
  json : String
deriving DecidableEq, Repr

/-- Text written by `json.Encoder.Encode` for a `*Schema`. -/
def encodeSchema : Option Schema → String
  | none => "null\n"
  | some s => s.json

/-- Type `openapi3filter.ParseErrorKind`. -/
inductive ParseErrorKind
  | KindOther
  | KindUnsupportedFormat
  | KindInvalidFormat
deriving DecidableEq, Repr

/-- Type `routers.RouteError`. -/
structure RouteError where
  Reason : String
deriving DecidableEq, Repr

mutual
/-- A value of the Go interface type `error`: nil, the sentinel
`openapi3filter.ErrInvalidRequired`, a pointer to one of the library's error structs, or an
error of any other dynamic type, given by its message. -/
inductive GoError
  | nil
  | ErrInvalidRequired
  | foreign (msg : String)
  | routeError (e : RouteError)
  | requestError (e : RequestError)
  | parseError (e : ParseError)
  | schemaError (e : SchemaError)
deriving DecidableEq, Repr
/-- Type `openapi3filter.RequestError` (without the `Input` field, which is never read). -/
inductive RequestError
  | mk (Parameter : Option Parameter) (RequestBody : Option RequestBody) (Reason : String)
      (Err : GoError)
deriving DecidableEq, Repr
/-- Type `openapi3filter.ParseError`. -/
inductive ParseError
  | mk (Kind : ParseErrorKind) (Value : GoValue) (Reason : String) (Cause : GoError)
      (path : List GoValue)
deriving DecidableEq, Repr
/-- Type `openapi3.SchemaError`. -/
inductive SchemaError
  | mk (Value : GoValue) (reversePath : List String) (Schema : Option Schema)
      (SchemaField : String) (Reason : String) (Origin : GoError)
deriving DecidableEq, Repr
end

/-- Test `err == nil`. -/
def GoError.isNil : GoError → Bool
  | .nil => true
  | _ => false

/-- Field `Parameter`. -/
def RequestError.Parameter : RequestError → Option Parameter
  | .mk p _ _ _ => p

/-- Field `RequestBody`. -/
def RequestError.RequestBody : RequestError → Option RequestBody
  | .mk _ b _ _ => b

/-- Field `Reason`. -/
def RequestError.Reason : RequestError → String
  | .mk _ _ r _ => r

/-- Field `Err`. -/
def RequestError.Err : RequestError → GoError
  | .mk _ _ _ e => e

/-- Field `Kind`. -/
def ParseError.Kind : ParseError → ParseErrorKind
  | .mk k _ _ _ _ => k

/-- Field `Value`. -/
def ParseError.Value : ParseError → GoValue
  | .mk _ v _ _ _ => v

/-- Field `Reason`. -/
def ParseError.Reason : ParseError → String
  | .mk _ _ r _ _ => r

/-- Field `Cause`. -/
def ParseError.Cause : ParseError → GoError
  | .mk _ _ _ c _ => c

/-- Field `Value`. -/
def SchemaError.Value : SchemaError → GoValue
  | .mk v _ _ _ _ _ => v

/-- Field `reversePath`. -/
def SchemaError.reversePath : SchemaError → List String
  | .mk _ rp _ _ _ _ => rp

/-- Field `Schema`. -/
def SchemaError.Schema : SchemaError → Option Schema
  | .mk _ _ s _ _ _ => s

/-- Field `SchemaField`. -/
def SchemaError.SchemaField : SchemaError → String
  | .mk _ _ _ f _ _ => f

/-- Field `Reason`. -/
def SchemaError.Reason : SchemaError → String
  | .mk _ _ _ _ r _ => r

/-- Field `Origin`. -/
def SchemaError.Origin : SchemaError → GoError
  | .mk _ _ _ _ _ o => o

/-- Method `(*ParseError).RootCause`: the first cause down the chain that is not a
`*ParseError` (nil when the chain ends without one). -/
def ParseError.RootCause : ParseError → GoError
  | .mk _ _ _ (.parseError v) _ => v.RootCause
  | .mk _ _ _ cause _ => cause

/-- Method `(*ParseError).Path`. -/
def ParseError.Path : ParseError → List GoValue
  | .mk _ _ _ (.parseError v) path => v.Path ++ path
  | .mk _ _ _ _ path => path

/-- Method `(*SchemaError).JSONPointer`: a reversed copy of `reversePath`. The Go result is a
nil slice exactly when `reversePath` is empty, so `JSONPointer() != nil` is `JSONPointer ≠ []`. -/
def SchemaError.JSONPointer (err : SchemaError) : List String :=
  err.reversePath.reverse

/-- The last step of `(*RequestError).Error`: the reason text in its context. -/
def requestErrorText (parameter : Option Parameter) (requestBody : Option RequestBody)
    (reason : String) : String :=
  match parameter with
  | some v => "parameter " ++ strconvQuote v.Name ++ " in " ++ v.In ++ " has an error: " ++ reason
  | none =>
    match requestBody with
    | some _ => "request body has an error: " ++ reason
    | none => reason

/-- The leading items of the message of `(*ParseError).innerError`: value and reason. -/
def parseErrorItems (value : GoValue) (reason : String) : List String :=
  (if value ≠ GoValue.nil then ["value " ++ value.fmtV] else [])
    ++ (if reason ≠ "" then [reason] else [])

/-- The text of `(*SchemaError).Error` for an error without origin (schema error details
enabled, the library default). -/
def schemaErrorText (value : GoValue) (reversePath : List String) (schema : Option Schema)
    (schemaField reason : String) : String :=
  (if reversePath.length > 0
    then "error at \"" ++ String.join (reversePath.reverse.map ("/" ++ ·)) ++ "\": "
    else "")
  ++ (if reason = "" then "doesn't match schema \"" ++ schemaField ++ "\"" else reason)
  ++ "\nSchema:\n  " ++ encodeSchema schema
  ++ "\nValue:\n  " ++ value.encode

mutual
/-- Method `Error()` of the interface `error`, by dynamic type. It is not called on nil. -/
def GoError.Error : GoError → String
  | .nil => ""
  | .ErrInvalidRequired => "value is required but missing"
  | .foreign msg => msg
  | .routeError e => e.Reason
  | .requestError e => e.Error
  | .parseError e =>
    let p := e.Path
    Join ((if p.length > 0 then ["path " ++ Join (p.map GoValue.fmtV) "."] else [])
      ++ [e.innerError]) ": "
  | .schemaError e => e.Error
/-- Method `(*RequestError).Error`. -/
def RequestError.Error : RequestError → String
  | .mk parameter requestBody reason err =>
    requestErrorText parameter requestBody
      (if err.isNil then reason
       else if reason.length = 0 then err.Error
       else reason ++ ": " ++ err.Error)
/-- Method `(*ParseError).innerError`. -/
def ParseError.innerError : ParseError → String
  | .mk _ value reason (.parseError v) _ =>
    Join (parseErrorItems value reason ++ [v.innerError]) ": "
  | .mk _ value reason cause _ =>
    Join (parseErrorItems value reason ++ (if cause.isNil then [] else [cause.Error])) ": "
/-- Method `(*SchemaError).Error`. -/
def SchemaError.Error : SchemaError → String
  | .mk value reversePath schema schemaField reason origin =>
    if origin.isNil then schemaErrorText value reversePath schema schemaField reason
    else origin.Error
end

/-- Method `(*ParseError).Error`. -/
def ParseError.Error (e : ParseError) : String :=
  (GoError.parseError e).Error

/-- Type `openapi3filter.ValidationErrorSource`. -/
structure ValidationErrorSource where
  Pointer : String := ""
  Parameter : String := ""
deriving DecidableEq, Repr

/-- Type `openapi3filter.ValidationError`, the normalised error. Go zero values are the
defaults; a nil `Source` pointer is `none`. -/
structure ValidationError where
  Id : String := ""
  Status : Int := 0
  Code : String := ""
  Title : String := ""
  Detail : String := ""
  Source : Option ValidationErrorSource := none
deriving DecidableEq, Repr

/-! ## Constants of `net/http` -/

/-- Constant `http.StatusBadRequest`. -/
def StatusBadRequest : Int := 400

/-- Constant `http.StatusNotFound`. -/
def StatusNotFound : Int := 404

/-- Constant `http.StatusMethodNotAllowed`. -/
def StatusMethodNotAllowed : Int := 405

/-- Constant `http.StatusUnsupportedMediaType`. -/
def StatusUnsupportedMediaType : Int := 415

/-- Constant `http.StatusUnprocessableEntity`. -/
def StatusUnprocessableEntity : Int := 422

/-- Constant `http.StatusInternalServerError`. -/
def StatusInternalServerError : Int := 500

/-! ## The functions of `validationerror.go` -/

/-- Function `toJSONPointer`. -/
def toJSONPointer (reversePath : List String) : String :=
  "/" ++ Join reversePath "/"

/-- Function `convertRouteError`. -/
def convertRouteError (e : RouteError) : ValidationError :=
  if e.Reason = "Path doesn't support the HTTP method" then
    { Status := StatusMethodNotAllowed, Title := e.Reason }
  else
    { Status := StatusNotFound, Title := e.Reason }

/-- Function `convertBasicRequestError`. -/
def convertBasicRequestError (e : RequestError) : ValidationError :=
  let unsupportedContentType := "header 'Content-Type' has unexpected value: "
  if HasPrefix e.Reason unsupportedContentType then
    if HasSuffix e.Reason ": \"\"" then
      { Status := StatusUnsupportedMediaType, Title := "header 'Content-Type' is required" }
    else
      { Status := StatusUnsupportedMediaType,
        Title := "unsupported content type " ++ TrimPrefix e.Reason unsupportedContentType }
  else
    { Status := StatusBadRequest, Title := e.Error }

/-- Function `convertErrInvalidRequired`. -/
def convertErrInvalidRequired (e : RequestError) : ValidationError :=
  let fallback : ValidationError := { Status := StatusBadRequest, Title := e.Error }
  if e.Reason = GoError.ErrInvalidRequired.Error then
    match e.Parameter with
    | some p =>
      { Status := StatusBadRequest,
        Title := "Parameter '" ++ p.Name ++ "' in " ++ p.In ++ " is required" }
    | none => fallback
  else fallback

/-- The Go condition `p != nil && p.In == loc` on a `*Parameter`. -/
def paramIsIn (p : Option Parameter) (loc : String) : Bool :=
  match p with
  | some q => q.In == loc
  | none => false

/-- Reading through a pointer: a nil pointer faults. -/
def deref {α : Type} : Option α → Except Fault α
  | some a => .ok a
  | none => .error .nilDereference

/-- The `switch` of `convertParseError`: the value of `cErr` after it (`none` is the nil
pointer left when no case matches), or the fault of reading a field of a nil `e.Parameter`. -/
def convertParseErrorSwitch (e : RequestError) (innerErr : ParseError) :
    Except Fault (Option ValidationError) :=
  if innerErr.Kind = ParseErrorKind.KindInvalidFormat ∧ paramIsIn e.Parameter "path" = true then
    (deref e.Parameter).map fun p =>
      some { Status := StatusNotFound,
             Title := "Resource not found with '" ++ p.Name ++ "' value: "
               ++ innerErr.Value.fmtV }
  else if HasPrefix innerErr.Reason "unsupported content type" then
    .ok (some { Status := StatusUnsupportedMediaType, Title := innerErr.Reason })
  else if innerErr.Kind = ParseErrorKind.KindInvalidFormat ∧ innerErr.Reason ≠ "" then
    (deref e.Parameter).map fun p =>
      some { Status := StatusBadRequest,
             Title := "Parameter '" ++ p.Name ++ "' in " ++ p.In ++ " is invalid: "
               ++ innerErr.Value.fmtV ++ " is " ++ innerErr.Reason }
  else if innerErr.RootCause ≠ GoError.nil then
    let otherwise : ValidationError := { Status := StatusBadRequest, Title := innerErr.Reason }
    match innerErr.Cause with
    | .parseError rootErr =>
      if rootErr.Kind = ParseErrorKind.KindInvalidFormat then
        (deref e.Parameter).map fun p =>
          if p.In = "query" then
            some { Status := StatusBadRequest,
                   Title := "Parameter '" ++ p.Name ++ "' in " ++ p.In ++ " is invalid: "
                     ++ rootErr.Value.fmtV ++ " is " ++ rootErr.Reason }
          else some otherwise
      else .ok (some otherwise)
    | _ => .ok (some otherwise)
  else
    .ok none

/-- Function `convertParseError`. After the `switch`, `cErr.Title` is read through `cErr`,
which is still nil when no case matched. -/
def convertParseError (e : RequestError) (innerErr : ParseError) :
    Except Fault ValidationError :=
  match convertParseErrorSwitch e innerErr with
  | .error f => .error f
  | .ok none => .error .nilDereference
  | .ok (some cErr) =>
    if cErr.Title = "" then .ok { cErr with Title := "Could not parse request body" }
    else .ok cErr

/-- The status step of `convertSchemaError` ("Add http status code"). -/
def addStatus (e : RequestError) (cErr : ValidationError) : ValidationError :=
  match e.Parameter, e.RequestBody with
  | some _, _ => { cErr with Status := StatusBadRequest }
  | none, some _ => { cErr with Status := StatusUnprocessableEntity }
  | none, none => cErr

/-- The source step of `convertSchemaError` ("Add error source"). -/
def addSource (e : RequestError) (innerErr : SchemaError) (cErr : ValidationError) :
    ValidationError :=
  let pointerBranch : ValidationError :=
    if innerErr.JSONPointer ≠ [] then
      let pointer := innerErr.JSONPointer
      { cErr with
        Source := some { Pointer := toJSONPointer pointer },
        Title := cErr.Title ++ " See " ++ toJSONPointer pointer }
    else cErr
  match e.Parameter with
  | some p =>
    if p.In = "query" then
      { cErr with
        Source := some { Parameter := p.Name },
        Title := cErr.Title ++ " See " ++ p.Name }
    else pointerBranch
  | none => pointerBranch

/-- The enum step of `convertSchemaError` ("Add details on allowed values for enums"). It reads
`innerErr.Schema.Enum` and `e.Parameter.Explode` without a nil test. -/
def addEnumDetail (e : RequestError) (innerErr : SchemaError) (cErr : ValidationError) :
    Except Fault ValidationError :=
  if innerErr.SchemaField = "enum" ∧
      innerErr.Reason = "JSON value is not one of the allowed values" then
    match innerErr.Schema with
    | none => .error .nilDereference
    | some schema =>
      let enums := schema.Enum.map GoValue.fmtV
      let detail := "Value '" ++ innerErr.Value.fmtV ++ "' at "
        ++ toJSONPointer innerErr.JSONPointer ++ " must be one of: " ++ Join enums ", "
      let value := innerErr.Value.fmtV
      match e.Parameter with
      | none => .error .nilDereference
      | some p =>
        if (p.Explode = none ∨ p.Explode = some true) ∧ (p.Style = "" ∨ p.Style = "form") ∧
            Contains value "," = true then
          let parts := Split value ','
          .ok { cErr with
                Detail := detail ++ "; " ++ ("perhaps you intended '?" ++ p.Name ++ "="
                  ++ Join parts ("&" ++ p.Name ++ "=") ++ "'") }
        else
          .ok { cErr with Detail := detail }
  else
    .ok cErr

/-- Function `convertSchemaError`. The origin is converted first when it is a `*SchemaError`;
the status, source and enum steps then work on its result. -/
def convertSchemaError (e : RequestError) : SchemaError → Except Fault ValidationError
  | .mk value reversePath schema schemaField reason (.schemaError originErr) =>
    let innerErr :=
      SchemaError.mk value reversePath schema schemaField reason (.schemaError originErr)
    match convertSchemaError e originErr with
    | .error f => .error f
    | .ok cErr => addEnumDetail e innerErr (addSource e innerErr (addStatus e cErr))
  | .mk value reversePath schema schemaField reason origin =>
    let innerErr := SchemaError.mk value reversePath schema schemaField reason origin
    addEnumDetail e innerErr (addSource e innerErr (addStatus e { Title := reason }))

/-- Function `Decode`. The Go result pair `(*ValidationError, error)` is the pair of an optional
normalised error and a `GoError` (`GoError.nil` for a nil error); `ok = true` of the
specification is a result `(some _, GoError.nil)`. -/
def Decode (err : GoError) : Except Fault (Option ValidationError × GoError) :=
  match err with
  | .nil => .error .nilDereference
  | _ =>
    if err.Error = "invalid route" then
      .ok (some { Status := StatusNotFound, Title := "not found" }, GoError.nil)
    else
      match err with
      | .routeError e => .ok (some (convertRouteError e), GoError.nil)
      | .requestError e =>
        let cErr : Except Fault (Option ValidationError) :=
          match e.Err with
          | .nil => .ok (some (convertBasicRequestError e))
          | .ErrInvalidRequired => .ok (some (convertErrInvalidRequired e))
          | .parseError innerErr => (convertParseError e innerErr).map some
          | .schemaError innerErr => (convertSchemaError e innerErr).map some
          | _ => .ok none
        match cErr with
        | .error f => .error f
        | .ok (some c) => .ok (some c, GoError.nil)
        | .ok none => .ok (none, err)
      | _ => .ok (none, err)

/-! ## The handler of `validator.go` -/

/-- What the handler of `Validator` does with the request: it answers with
`c.AbortWithStatusJSON(code, gin.H{"error": error})`, or it passes the request on with
`c.Next()` (the response validation that follows only logs). -/
inductive HandlerAction
  | abortWithStatusJSON (code : Int) (error : String)
  | next
deriving DecidableEq, Repr

/-- The Go condition `d != nil && d.Status != 0 && d.Title != ""` on a `*ValidationError`. -/
def decodedIsSet (d : Option ValidationError) : Bool :=
  match d with
  | some v => v.Status != 0 && v.Title != ""
  | none => false

/-- The route lookup branch of the handler (`validator.go`, lines 45-53): the decision on a
non-nil error of `router.FindRoute`. -/
def onFindRouteError (err : GoError) : Except Fault HandlerAction :=
  match Decode err with
  | .error f => .error f
  | .ok (decodedValidationError, errDecode) =>
    if errDecode ≠ GoError.nil then
      .ok (.abortWithStatusJSON StatusInternalServerError "internal server error")
    else
      (deref decodedValidationError).map fun d => .abortWithStatusJSON d.Status d.Title

/-- The request validation branch of the handler (`validator.go`, lines 62-70): the decision on
a non-nil error of `openapi3filter.ValidateRequest`. -/
def onValidateRequestError (err : GoError) : Except Fault HandlerAction :=
  match Decode err with
  | .error f => .error f
  | .ok (decodedValidationError, errDecode) =>
    if errDecode ≠ GoError.nil ∧ decodedIsSet decodedValidationError = true then
      .ok (.abortWithStatusJSON StatusInternalServerError "internal server error")
    else
      (deref decodedValidationError).map fun d => .abortWithStatusJSON d.Status d.Title

/-- The handler returned by `Validator`, as a function of the error results of the
collaborator's `FindRoute` and `ValidateRequest` (`GoError.nil` when the step succeeds). -/
def Validator (findRouteErr validateRequestErr : GoError) : Except Fault HandlerAction :=
  if findRouteErr ≠ GoError.nil then onFindRouteError findRouteErr
  else if validateRequestErr ≠ GoError.nil then onValidateRequestError validateRequestErr
  else .ok .next

/-! ## Shapes named by the properties -/

/-- Reason of the schema error at the end of the chain of `Origin` schema errors: the base
title of `convertSchemaError`. -/
def SchemaError.innermostReason : SchemaError → String
  | .mk _ _ _ _ _ (.schemaError originErr) => originErr.innermostReason
  | .mk _ _ _ _ reason _ => reason

/-- Whether some schema error of the `Origin` chain has a non-empty `reversePath`. -/
def SchemaError.anyPath : SchemaError → Bool
  | .mk _ reversePath _ _ _ (.schemaError originErr) => !reversePath.isEmpty || originErr.anyPath
  | .mk _ reversePath _ _ _ _ => !reversePath.isEmpty

/-- Inputs on which `Decode` leaves the status zero or the title empty: a `RouteError` with
empty reason; a `RequestError` without inner error, parameter and request body and with empty
reason; a `RequestError` wrapping a `SchemaError` with neither parameter nor request body, or
with an empty innermost reason and no " See ..." suffix. -/
def degenerate : GoError → Bool
  | .routeError e => e.Reason = ""
  | .requestError (.mk parameter requestBody reason .nil) =>
    parameter.isNone && requestBody.isNone && reason = ""
  | .requestError (.mk parameter requestBody _ (.schemaError innerErr)) =>
    (parameter.isNone && requestBody.isNone) ||
      (innerErr.innermostReason = "" && !paramIsIn parameter "query" && !innerErr.anyPath)
  | _ => false

/-- Number of `*SchemaError` origins below a schema error: n for a chain s0, ..., sn. -/
def SchemaError.depth : SchemaError → Nat
  | .mk _ _ _ _ _ (.schemaError originErr) => originErr.depth + 1
  | .mk _ _ _ _ _ _ => 0

/-- Whether every schema error of the `Origin` chain carries its schema (a non-nil `Schema`
pointer). -/
def SchemaError.hasSchemas : SchemaError → Bool
  | .mk _ _ schema _ _ (.schemaError originErr) => schema.isSome && originErr.hasSchemas
  | .mk _ _ schema _ _ _ => schema.isSome

/-- The text of n copies of the suffix " See name". -/
def seeSuffixes (n : Nat) (name : String) : String :=
  String.join (List.replicate n (" See " ++ name))

/-! ## Auxiliary facts on strings -/

/-- Strings with different first characters differ. -/
theorem ne_of_head {a b : String} {c d : Char} {x y : List Char}
    (ha : a.data = c :: x) (hb : b.data = d :: y) (h : c ≠ d) : a ≠ b := by
  intro hab
  rw [hab, hb] at ha
  exact h (List.cons.inj ha).1.symm

/-- Appending to a non-empty string gives a non-empty string. -/
theorem append_ne_empty_left {a : String} (t : String) (h : a ≠ "") : a ++ t ≠ "" := by
  intro hab
  apply h
  have h1 : (a ++ t).data = [] := by rw [hab]
  rw [String.data_append] at h1
  exact String.ext (List.append_eq_nil.mp h1).1

/-- A concatenation is empty exactly when both parts are. -/
theorem append_eq_empty_iff (a t : String) : a ++ t = "" ↔ a = "" ∧ t = "" := by
  constructor
  · intro hab
    have h1 : (a ++ t).data = [] := by rw [hab]
    rw [String.data_append] at h1
    exact ⟨String.ext (List.append_eq_nil.mp h1).1, String.ext (List.append_eq_nil.mp h1).2⟩
  · rintro ⟨rfl, rfl⟩; rfl

/-- A string starts with its own left part. -/
theorem hasPrefix_append (pre v : String) : HasPrefix (pre ++ v) pre = true := by
  simp [HasPrefix, String.data_append]

/-- Trimming the left part of a concatenation leaves the right part. -/
theorem trimPrefix_append (pre v : String) : TrimPrefix (pre ++ v) pre = v := by
  simp [TrimPrefix, hasPrefix_append, String.data_append]

/-- The reversed suffix test of `convertBasicRequestError`, by the length of the value portion. -/
theorem isPrefixOf_quotes_rev (w : List Char) :
    List.isPrefixOf ['"', '"', ' ', ':']
        (w ++ "header 'Content-Type' has unexpected value: ".data.reverse) = true ↔
      w = ['"', '"'] ∨ List.isPrefixOf ['"', '"', ' ', ':'] w = true := by
  have hlit : "header 'Content-Type' has unexpected value: ".data.reverse
      = ' ' :: ':' :: 'e' :: 'u' :: "lav detcepxenu sah 'epyT-tnetnoC' redaeh".data := by decide
  rw [hlit]
  rcases w with _ | ⟨a, _ | ⟨b, _ | ⟨c, _ | ⟨d, rest⟩⟩⟩⟩ <;> simp [List.isPrefixOf]
  constructor <;> rintro ⟨h1, h2⟩ <;> exact ⟨h1.symm, h2.symm⟩

/-- The suffix test of `convertBasicRequestError` in terms of the value portion. -/
theorem hasSuffix_contentType (v : String) :
    HasSuffix ("header 'Content-Type' has unexpected value: " ++ v) ": \"\"" = true ↔
      v = "\"\"" ∨ HasSuffix v ": \"\"" = true := by
  have hrev : v = "\"\"" ↔ v.data.reverse = ['"', '"'] := by
    rw [String.ext_iff, List.reverse_eq_iff]; rfl
  rw [hrev]
  simp only [HasSuffix, List.isSuffixOf, String.data_append, List.reverse_append]
  exact isPrefixOf_quotes_rev v.data.reverse

/-! ## Rendered messages -/

/-- With a parameter attached the rendered message is not the sentinel text. -/
theorem requestErrorText_parameter_ne (v : Parameter) (b : Option RequestBody) (r : String) :
    requestErrorText (some v) b r ≠ "invalid route" := by
  simp only [requestErrorText]
  apply ne_of_head (c := 'p') (d := 'i') (y := "nvalid route".data)
  · simp only [String.data_append]; rfl
  · rfl
  · decide

/-- With a request body attached the rendered message is not the sentinel text. -/
theorem requestErrorText_body_ne (b : RequestBody) (r : String) :
    requestErrorText none (some b) r ≠ "invalid route" := by
  simp only [requestErrorText]
  apply ne_of_head (c := 'r') (d := 'i') (y := "nvalid route".data)
  · simp only [String.data_append]; rfl
  · rfl
  · decide

/-- The rendered message is empty only without parameter, request body and reason. -/
theorem requestErrorText_eq_empty (p : Option Parameter) (b : Option RequestBody)
    (r : String) : requestErrorText p b r = "" ↔ p = none ∧ b = none ∧ r = "" := by
  rcases p with _ | p
  · rcases b with _ | b
    · simp [requestErrorText]
    · simp only [requestErrorText, append_eq_empty_iff]
      constructor
      · intro h; exact absurd h.1 (by decide)
      · intro h; exact absurd h.2.1 (by simp)
  · simp only [requestErrorText, append_eq_empty_iff]
    constructor
    · intro h; exact absurd h.1.1.1.1.1 (by decide)
    · intro h; exact absurd h.1 (by simp)

/-- Rendered message of a `RequestError` without inner error. -/
theorem requestError_Error_nil (p : Option Parameter) (b : Option RequestBody) (r : String) :
    (RequestError.mk p b r GoError.nil).Error = requestErrorText p b r := by
  simp [RequestError.Error, GoError.isNil]

/-- Rendered message of a `RequestError` with an inner error. -/
theorem requestError_Error_of_ne_nil (p : Option Parameter) (b : Option RequestBody)
    (r : String) (err : GoError) (h : err.isNil = false) :
    (RequestError.mk p b r err).Error =
      requestErrorText p b (if r.length = 0 then err.Error else r ++ ": " ++ err.Error) := by
  simp [RequestError.Error, h]

/-- A `RequestError` with a parameter never renders as the sentinel text. -/
theorem requestError_Error_parameter_ne (v : Parameter) (b : Option RequestBody) (r : String)
    (err : GoError) : (RequestError.mk (some v) b r err).Error ≠ "invalid route" := by
  simp only [RequestError.Error]
  exact requestErrorText_parameter_ne v b _

/-- A `RequestError` with a request body never renders as the sentinel text. -/
theorem requestError_Error_body_ne (p : Option Parameter) (b : RequestBody) (r : String)
    (err : GoError) : (RequestError.mk p (some b) r err).Error ≠ "invalid route" := by
  simp only [RequestError.Error]
  cases p with
  | none => exact requestErrorText_body_ne b _
  | some v => exact requestErrorText_parameter_ne v _ _

/-- A `RequestError` with the Content-Type reason never renders as the sentinel text. -/
theorem contentType_Error_ne (p : Option Parameter) (b : Option RequestBody) (v : String) :
    (RequestError.mk p b ("header 'Content-Type' has unexpected value: " ++ v)
      GoError.nil).Error ≠ "invalid route" := by
  rcases p with _ | p
  · rcases b with _ | b
    · rw [requestError_Error_nil]
      simp only [requestErrorText]
      apply ne_of_head (c := 'h') (d := 'i') (y := "nvalid route".data)
      · simp only [String.data_append]; rfl
      · rfl
      · decide
    · exact requestError_Error_body_ne _ _ _ _
  · exact requestError_Error_parameter_ne _ _ _ _

/-- A `RequestError` wrapping the required-field sentinel never renders as the sentinel text
"invalid route". -/
theorem required_Error_ne (p : Option Parameter) (b : Option RequestBody) (r : String) :
    (RequestError.mk p b r GoError.ErrInvalidRequired).Error ≠ "invalid route" := by
  rcases p with _ | p
  · rcases b with _ | b
    · rw [requestError_Error_of_ne_nil none none r GoError.ErrInvalidRequired rfl]
      simp only [GoError.Error, requestErrorText]
      split_ifs with h
      · decide
      · intro hc
        have hl := congrArg String.length hc
        simp only [String.length_append] at hl
        have h1 : "value is required but missing".length = 29 := by decide
        have h2 : "invalid route".length = 13 := by decide
        omega
    · exact requestError_Error_body_ne _ _ _ _
  · exact requestError_Error_parameter_ne _ _ _ _

/-! ## Dispatch of `Decode` -/

/-- On the nil error `Decode` faults at `err.Error()`. -/
theorem Decode_nil : Decode GoError.nil = .error Fault.nilDereference := rfl

/-- First dispatch step of `Decode`: the sentinel message. -/
theorem Decode_invalid_route (err : GoError) (hn : err ≠ GoError.nil)
    (h : err.Error = "invalid route") :
    Decode err = .ok (some { Status := StatusNotFound, Title := "not found" }, GoError.nil) := by
  cases err <;> simp_all [Decode]

/-- Second dispatch step of `Decode`: a `RouteError`. -/
theorem Decode_routeError (e : RouteError) (h : e.Reason ≠ "invalid route") :
    Decode (.routeError e) = .ok (some (convertRouteError e), GoError.nil) := by
  simp [Decode, GoError.Error, h]

/-- Sub-dispatch of `Decode` on a `RequestError` without inner error. -/
theorem Decode_request_nil (e : RequestError) (h : e.Error ≠ "invalid route")
    (he : e.Err = GoError.nil) :
    Decode (.requestError e) = .ok (some (convertBasicRequestError e), GoError.nil) := by
  simp [Decode, GoError.Error, h, he]

/-- Sub-dispatch of `Decode` on the required-field sentinel. -/
theorem Decode_request_required (e : RequestError) (h : e.Error ≠ "invalid route")
    (he : e.Err = GoError.ErrInvalidRequired) :
    Decode (.requestError e) = .ok (some (convertErrInvalidRequired e), GoError.nil) := by
  simp [Decode, GoError.Error, h, he]

/-- Sub-dispatch of `Decode` on a `ParseError`. -/
theorem Decode_request_parse (e : RequestError) (innerErr : ParseError)
    (h : e.Error ≠ "invalid route") (he : e.Err = GoError.parseError innerErr) :
    Decode (.requestError e) =
      (convertParseError e innerErr).map fun c => (some c, GoError.nil) := by
  simp only [Decode, GoError.Error, h, he, if_false]
  cases convertParseError e innerErr <;> rfl

/-- Sub-dispatch of `Decode` on a `SchemaError`. -/
theorem Decode_request_schema (e : RequestError) (innerErr : SchemaError)
    (h : e.Error ≠ "invalid route") (he : e.Err = GoError.schemaError innerErr) :
    Decode (.requestError e) =
      (convertSchemaError e innerErr).map fun c => (some c, GoError.nil) := by
  simp only [Decode, GoError.Error, h, he, if_false]
  cases convertSchemaError e innerErr <;> rfl

/-! ## The conversion functions -/

/-- Status and title of `convertBasicRequestError`. -/
theorem convertBasicRequestError_invariant (p : Option Parameter) (b : Option RequestBody)
    (r : String) :
    ((convertBasicRequestError (.mk p b r GoError.nil)).Status ≠ 0 ∧
        (convertBasicRequestError (.mk p b r GoError.nil)).Title ≠ "") ↔
      ¬ (p = none ∧ b = none ∧ r = "") := by
  unfold convertBasicRequestError
  simp only [RequestError.Reason]
  split_ifs with h1 h2
  · have hr : r ≠ "" := by
      intro hr; subst hr; exact absurd h1 (by decide)
    simp [StatusUnsupportedMediaType, hr]
  · have hr : r ≠ "" := by
      intro hr; subst hr; exact absurd h1 (by decide)
    have ht : "unsupported content type " ++
        TrimPrefix r "header 'Content-Type' has unexpected value: " ≠ "" :=
      append_ne_empty_left _ (by decide)
    simp [StatusUnsupportedMediaType, hr, ht]
  · rw [requestError_Error_nil]
    simp [StatusBadRequest, requestErrorText_eq_empty]

/-- Status and title of `convertErrInvalidRequired`. -/
theorem convertErrInvalidRequired_invariant (p : Option Parameter) (b : Option RequestBody)
    (r : String) :
    (convertErrInvalidRequired (.mk p b r GoError.ErrInvalidRequired)).Status ≠ 0 ∧
      (convertErrInvalidRequired (.mk p b r GoError.ErrInvalidRequired)).Title ≠ "" := by
  have herr : (RequestError.mk p b r GoError.ErrInvalidRequired).Error ≠ "" := by
    rw [requestError_Error_of_ne_nil p b r GoError.ErrInvalidRequired rfl,
      Ne, requestErrorText_eq_empty]
    rintro ⟨_, _, h⟩
    split_ifs at h with hl
    · exact absurd h (by decide)
    · rw [append_eq_empty_iff] at h
      exact absurd h.2 (by decide)
  unfold convertErrInvalidRequired
  simp only [RequestError.Reason, RequestError.Parameter]
  split_ifs with h1
  · rcases p with _ | p
    · exact ⟨by simp [StatusBadRequest], herr⟩
    · refine ⟨by simp [StatusBadRequest], ?_⟩
      simp only
      repeat apply append_ne_empty_left
      decide
  · exact ⟨by simp [StatusBadRequest], herr⟩

/-- Result of `convertParseError` when a case of the `switch` matched: the fallback title is
applied to an empty title. -/
theorem convertParseError_of_switch (e : RequestError) (innerErr : ParseError)
    (c : ValidationError) (h : convertParseErrorSwitch e innerErr = .ok (some c)) :
    convertParseError e innerErr =
      .ok (if c.Title = "" then { c with Title := "Could not parse request body" } else c) := by
  simp only [convertParseError, h]
  split_ifs <;> rfl

/-- Every case of the `switch` of `convertParseError` sets a non-zero status. -/
theorem convertParseErrorSwitch_status (e : RequestError) (innerErr : ParseError)
    (c : ValidationError) (h : convertParseErrorSwitch e innerErr = .ok (some c)) :
    c.Status ≠ 0 := by
  have hfin : ∀ (c0 : ValidationError), c0.Status ≠ 0 →
      (Except.ok (some c0) : Except Fault (Option ValidationError)) = .ok (some c) →
      c.Status ≠ 0 := by
    intro c0 h0 heq
    cases heq
    exact h0
  unfold convertParseErrorSwitch at h
  rcases hp : e.Parameter with _ | p <;> rw [hp] at h <;>
    simp only [deref, Except.map, paramIsIn] at h <;>
    split_ifs at h <;> first
      | exact hfin _ (by simp [StatusBadRequest, StatusNotFound, StatusUnsupportedMediaType]) h
      | (cases h)
      | (split at h <;> first
          | exact hfin _ (by simp [StatusBadRequest]) h
          | (cases h)
          | (split_ifs at h <;> exact hfin _ (by simp [StatusBadRequest]) h))

/-- A result of `convertParseError` has a non-zero status and a non-empty title. -/
theorem convertParseError_invariant (e : RequestError) (innerErr : ParseError)
    (v : ValidationError) (h : convertParseError e innerErr = .ok v) :
    v.Status ≠ 0 ∧ v.Title ≠ "" := by
  unfold convertParseError at h
  split at h
  · cases h
  · cases h
  · rename_i c hsw
    have hst := convertParseErrorSwitch_status e innerErr c hsw
    split_ifs at h with ht
    · cases h; exact ⟨hst, by simp⟩
    · cases h; exact ⟨hst, ht⟩

/-- The enum step changes neither status nor title. -/
theorem addEnumDetail_frame (e : RequestError) (s : SchemaError) (c v : ValidationError)
    (h : addEnumDetail e s c = .ok v) : v.Status = c.Status ∧ v.Title = c.Title := by
  unfold addEnumDetail at h
  split_ifs at h with h1
  · split at h
    · cases h
    · split at h
      · cases h
      · dsimp only at h
        split_ifs at h <;> (cases h; exact ⟨rfl, rfl⟩)
  · cases h; exact ⟨rfl, rfl⟩

/-- The source step does not change the status. -/
theorem addSource_status (e : RequestError) (s : SchemaError) (c : ValidationError) :
    (addSource e s c).Status = c.Status := by
  unfold addSource
  rcases e.Parameter with _ | p <;> simp only <;> split_ifs <;> rfl

/-- The title after the source step is empty only if it was empty and no suffix was appended. -/
theorem addSource_title_empty (e : RequestError) (s : SchemaError) (c : ValidationError) :
    (addSource e s c).Title = "" ↔
      c.Title = "" ∧ paramIsIn e.Parameter "query" = false ∧ s.reversePath = [] := by
  unfold addSource
  have hsee : ∀ x : String, c.Title ++ " See " ++ x ≠ "" := fun x hx => by
    rw [append_eq_empty_iff, append_eq_empty_iff] at hx
    exact absurd hx.1.2 (by decide)
  rcases e.Parameter with _ | p
  · simp only [paramIsIn, SchemaError.JSONPointer]
    split_ifs with h1
    · simp [hsee]; intro _; simpa using h1
    · simp at h1; simp [h1]
  · simp only [paramIsIn, SchemaError.JSONPointer]
    split_ifs with h1 h2
    · simp [hsee, h1]
    · simp [hsee, h1]; intro _; simpa using h2
    · simp at h2; simp [h1, h2]

/-- The status step does not change the title. -/
theorem addStatus_title (e : RequestError) (c : ValidationError) :
    (addStatus e c).Title = c.Title := by
  unfold addStatus
  split <;> rfl

/-- The status step leaves a zero status only without parameter and request body. -/
theorem addStatus_status_zero (e : RequestError) (c : ValidationError) :
    (addStatus e c).Status = 0 ↔
      e.Parameter = none ∧ e.RequestBody = none ∧ c.Status = 0 := by
  unfold addStatus
  split <;> simp_all [StatusBadRequest, StatusUnprocessableEntity]

/-- Status and title of a result of `convertSchemaError`, over an origin chain of any depth. -/
theorem convertSchemaError_status_title (e : RequestError) :
    ∀ (s : SchemaError) (v : ValidationError), convertSchemaError e s = .ok v →
      (v.Status = 0 ↔ e.Parameter = none ∧ e.RequestBody = none) ∧
      (v.Title = "" ↔ s.innermostReason = "" ∧ paramIsIn e.Parameter "query" = false ∧
        s.anyPath = false)
  | .mk value reversePath schema schemaField reason (.schemaError originErr), v, h => by
    rw [convertSchemaError] at h
    cases hrec : convertSchemaError e originErr with
    | error f => rw [hrec] at h; cases h
    | ok c =>
      rw [hrec] at h
      have ih := convertSchemaError_status_title e originErr c hrec
      obtain ⟨hs, ht⟩ := addEnumDetail_frame _ _ _ _ h
      rw [hs, ht, addSource_status, addSource_title_empty, addStatus_title,
        addStatus_status_zero, ih.1, ih.2]
      simp only [SchemaError.innermostReason, SchemaError.anyPath, SchemaError.reversePath]
      constructor
      · tauto
      · cases reversePath with
        | nil => simp; tauto
        | cons a l => simp
  | .mk value reversePath schema schemaField reason .nil, v, h
  | .mk value reversePath schema schemaField reason .ErrInvalidRequired, v, h
  | .mk value reversePath schema schemaField reason (.foreign _), v, h
  | .mk value reversePath schema schemaField reason (.routeError _), v, h
  | .mk value reversePath schema schemaField reason (.requestError _), v, h
  | .mk value reversePath schema schemaField reason (.parseError _), v, h => by
    rw [convertSchemaError] at h
    · obtain ⟨hs, ht⟩ := addEnumDetail_frame _ _ _ _ h
      rw [hs, ht, addSource_status, addSource_title_empty, addStatus_title,
        addStatus_status_zero]
      simp only [SchemaError.innermostReason, SchemaError.anyPath, SchemaError.reversePath]
      constructor
      · tauto
      · cases reversePath <;> simp
    · intro o ho; cases ho

/-! ## C1: totality over the recognized shapes -/

/-- C1 (evaluation at the failing inputs): on recognized shapes `Decode` faults with a nil
dereference. First input: a `RequestError` with a query parameter wrapping a `ParseError` of kind
other with empty reason and no cause, no case of the `switch` matches and `cErr.Title` is read
through the nil `cErr`. Second input: an invalid-format `ParseError` with a reason and no attached
parameter, case (c) reads `e.Parameter.Name`. Third input: an enum `SchemaError` with only a
request body attached, the enum step reads `e.Parameter.Explode`. -/
theorem C1_nil_dereference_on_recognized_shapes :
    Decode (.requestError (.mk
        (some { Name := "limit", In := "query", Style := "", Explode := none }) none ""
        (.parseError (.mk ParseErrorKind.KindOther GoValue.nil "" GoError.nil [])))) =
        .error Fault.nilDereference ∧
      Decode (.requestError (.mk none (some { Required := true }) ""
        (.parseError (.mk ParseErrorKind.KindInvalidFormat (.dyn "abc" "\"abc\"")
          "an invalid integer" (.foreign "strconv.ParseFloat: invalid syntax") [])))) =
        .error Fault.nilDereference ∧
      Decode (.requestError (.mk none (some { Required := true }) ""
        (.schemaError (.mk (.dyn "bogus" "\"bogus\"\n") ["status"]
          (some { Enum := [.dyn "a" "\"a\"\n", .dyn "b" "\"b\"\n"], json := "\x7b\x7d\n" })
          "enum" "JSON value is not one of the allowed values" GoError.nil)))) =
        .error Fault.nilDereference := by
  decide

/-! ## C2: unrecognized failures -/

/-- C2 (amended): for every non-nil error whose rendered message is not "invalid route", that is
not a `RouteError`, and that, when it is a `RequestError`, has an inner error which is present
and is neither the required-field sentinel, a `ParseError` nor a `SchemaError`, `Decode` returns
no normalised error and hands the original error back unchanged. -/
theorem C2_unrecognized_is_handed_back (err : GoError)
    (hmsg : err.Error ≠ "invalid route")
    (hnil : err ≠ GoError.nil)
    (hroute : ∀ e, err ≠ GoError.routeError e)
    (hreq : ∀ e, err = GoError.requestError e →
      e.Err ≠ GoError.nil ∧ e.Err ≠ GoError.ErrInvalidRequired ∧
      (∀ p, e.Err ≠ GoError.parseError p) ∧ (∀ s, e.Err ≠ GoError.schemaError s)) :
    Decode err = .ok (none, err) := by
  cases err with
  | nil => exact absurd rfl hnil
  | routeError e => exact absurd rfl (hroute e)
  | ErrInvalidRequired => simp [Decode, hmsg]
  | foreign msg => simp [Decode, hmsg]
  | parseError e => simp [Decode, hmsg]
  | schemaError e => simp [Decode, hmsg]
  | requestError e =>
    obtain ⟨h1, h2, h3, h4⟩ := hreq e rfl
    cases hE : e.Err with
    | nil => exact absurd hE h1
    | ErrInvalidRequired => exact absurd hE h2
    | parseError p => exact absurd hE (h3 p)
    | schemaError s => exact absurd hE (h4 s)
    | foreign msg => simp [Decode, hmsg, hE]
    | routeError e => simp [Decode, hmsg, hE]
    | requestError e => simp [Decode, hmsg, hE]

/-- C2 (counterexample): a `RequestError` without reason, parameter and request body that wraps a
foreign error with message "invalid route" renders as "invalid route"; `Decode` answers with
status 404 and title "not found" instead of handing the error back. -/
theorem C2_wrapped_invalid_route_is_decoded :
    Decode (.requestError (.mk none none "" (.foreign "invalid route"))) =
        .ok (some { Status := 404, Title := "not found" }, GoError.nil) ∧
      Decode (.requestError (.mk none none "" (.foreign "invalid route"))) ≠
        .ok (none, .requestError (.mk none none "" (.foreign "invalid route"))) := by
  decide

/-- C2 (witness): a `RequestError` with a request body wrapping a foreign error "boom" is handed
back unchanged. -/
theorem C2_wrapped_foreign_error :
    Decode (.requestError (.mk none (some { Required := true }) "" (.foreign "boom"))) =
      .ok (none, .requestError (.mk none (some { Required := true }) "" (.foreign "boom"))) :=
  C2_unrecognized_is_handed_back
    (.requestError (.mk none (some { Required := true }) "" (.foreign "boom")))
    (by decide) (by decide) (by intro e; simp)
    (by
      intro e he
      cases he
      simp [RequestError.Err])

/-! ## C3: status and title of a successful result -/

/-- C3 (amended): when `Decode` returns a normalised error, its status is non-zero and its title
non-empty exactly when the rendered message of the input is "invalid route" or the input is not
one of the `degenerate` shapes. -/
theorem C3_status_and_title_set_iff (err : GoError) (v : ValidationError)
    (h : Decode err = .ok (some v, GoError.nil)) :
    (v.Status ≠ 0 ∧ v.Title ≠ "") ↔ (err.Error = "invalid route" ∨ degenerate err = false) := by
  by_cases hmsg : err.Error = "invalid route"
  · have hn : err ≠ GoError.nil := by
      rintro rfl; rw [Decode_nil] at h; cases h
    rw [Decode_invalid_route err hn hmsg] at h
    cases h
    simp [hmsg, StatusNotFound]
  · simp only [hmsg, false_or]
    cases err with
    | nil => rw [Decode_nil] at h; cases h
    | ErrInvalidRequired => simp [Decode, hmsg] at h
    | foreign msg => simp [Decode, hmsg] at h
    | parseError e => simp [Decode, hmsg] at h
    | schemaError e => simp [Decode, hmsg] at h
    | routeError e =>
      rw [Decode_routeError e hmsg] at h
      cases h
      unfold convertRouteError
      split_ifs with hr
      · simp [degenerate, StatusMethodNotAllowed, hr]
      · simp [degenerate, StatusNotFound]
    | requestError e =>
      have hmsg' : e.Error ≠ "invalid route" := hmsg
      obtain ⟨p, b, r, inner⟩ := e
      cases inner with
      | nil =>
        rw [Decode_request_nil _ hmsg' rfl] at h
        cases h
        rw [convertBasicRequestError_invariant]
        simp [degenerate]
      | ErrInvalidRequired =>
        rw [Decode_request_required _ hmsg' rfl] at h
        cases h
        simp [degenerate, convertErrInvalidRequired_invariant]
      | parseError innerErr =>
        rw [Decode_request_parse _ innerErr hmsg' rfl] at h
        cases hc : convertParseError (.mk p b r (.parseError innerErr)) innerErr with
        | error f => rw [hc] at h; cases h
        | ok c =>
          rw [hc] at h
          cases h
          simp [degenerate, convertParseError_invariant _ _ _ hc]
      | schemaError innerErr =>
        rw [Decode_request_schema _ innerErr hmsg' rfl] at h
        cases hc : convertSchemaError (.mk p b r (.schemaError innerErr)) innerErr with
        | error f => rw [hc] at h; cases h
        | ok c =>
          rw [hc] at h
          cases h
          obtain ⟨hs, ht⟩ := convertSchemaError_status_title _ _ _ hc
          simp only [Ne, hs, ht, degenerate, RequestError.Parameter, RequestError.RequestBody]
          cases p <;> cases b <;> simp
      | foreign msg => simp [Decode, hmsg, RequestError.Err] at h
      | routeError e => simp [Decode, hmsg, RequestError.Err] at h
      | requestError e => simp [Decode, hmsg, RequestError.Err] at h

/-- C3 (counterexample): for a `RouteError` with empty reason `Decode` returns successfully with
status 404 and an empty title. -/
theorem C3_empty_route_reason_gives_empty_title :
    Decode (.routeError { Reason := "" }) =
        .ok (some { Status := 404, Title := "" }, GoError.nil) ∧
      ¬ (({ Status := 404, Title := "" } : ValidationError).Status ≠ 0 ∧
        ({ Status := 404, Title := "" } : ValidationError).Title ≠ "") := by
  decide

/-- C3 (witness): the missing required body field "name" is decoded to status 422 with title
`property "name" is missing See /name`; the input is not degenerate. -/
theorem C3_missing_body_field :
    Decode (.requestError (.mk none (some { Required := true }) ""
        (.schemaError (.mk GoValue.nil ["name"] (some { Enum := [], json := "\x7b\x7d\n" })
          "required" "property \"name\" is missing" GoError.nil)))) =
        .ok (some { Status := 422, Title := "property \"name\" is missing See /name",
                    Source := some { Pointer := "/name" } }, GoError.nil) ∧
      (((422 : Int) ≠ 0 ∧ "property \"name\" is missing See /name" ≠ "") ↔
        ((GoError.requestError (.mk none (some { Required := true }) ""
          (.schemaError (.mk GoValue.nil ["name"] (some { Enum := [], json := "\x7b\x7d\n" })
            "required" "property \"name\" is missing" GoError.nil)))).Error = "invalid route" ∨
         degenerate (.requestError (.mk none (some { Required := true }) ""
          (.schemaError (.mk GoValue.nil ["name"] (some { Enum := [], json := "\x7b\x7d\n" })
            "required" "property \"name\" is missing" GoError.nil)))) = false)) :=
  ⟨by decide,
   C3_status_and_title_set_iff
    (.requestError (.mk none (some { Required := true }) ""
      (.schemaError (.mk GoValue.nil ["name"] (some { Enum := [], json := "\x7b\x7d\n" })
        "required" "property \"name\" is missing" GoError.nil))))
    { Status := 422, Title := "property \"name\" is missing See /name",
      Source := some { Pointer := "/name" } }
    (by decide)⟩

/-! ## C4: route error rule -/

/-- C4 (amended): for every `RouteError` with reason R, `Decode` returns status 404 and title
"not found" when R is "invalid route", status 405 and title R when R is "Path doesn't support
the HTTP method", and status 404 and title R for every other R. -/
theorem C4_route_error_dispatch (R : String) :
    Decode (.routeError { Reason := R }) =
      .ok (some (if R = "invalid route" then { Status := 404, Title := "not found" }
                 else if R = "Path doesn't support the HTTP method"
                   then { Status := 405, Title := R }
                 else { Status := 404, Title := R }), GoError.nil) := by
  by_cases h : R = "invalid route"
  · subst h; decide
  · rw [Decode_routeError _ h]
    simp only [convertRouteError, h, if_false]
    split_ifs <;> rfl

/-- C4 (counterexample): for the `RouteError` with reason "invalid route" the title is "not found",
not the reason. -/
theorem C4_invalid_route_reason_gets_generic_title :
    Decode (.routeError { Reason := "invalid route" }) =
        .ok (some { Status := 404, Title := "not found" }, GoError.nil) ∧
      Decode (.routeError { Reason := "invalid route" }) ≠
        .ok (some { Status := 404, Title := "invalid route" }, GoError.nil) := by
  decide

/-! ## C5: Content-Type rule -/

/-- C5 (amended): for every `RequestError` with no inner error whose reason is the Content-Type
prefix followed by a value portion v, `Decode` returns status 415; the title is "header
'Content-Type' is required" exactly when v is the two-character string of two double quotes or
v ends in a colon, a blank and two double quotes, and "unsupported content type " followed by v
otherwise. -/
theorem C5_content_type_rule (parameter : Option Parameter) (requestBody : Option RequestBody)
    (v : String) :
    Decode (.requestError (.mk parameter requestBody
        ("header 'Content-Type' has unexpected value: " ++ v) GoError.nil)) =
      .ok (some { Status := 415,
                  Title := if v = "\"\"" ∨ HasSuffix v ": \"\"" = true
                    then "header 'Content-Type' is required"
                    else "unsupported content type " ++ v }, GoError.nil) := by
  rw [Decode_request_nil _ (contentType_Error_ne parameter requestBody v) rfl]
  simp only [convertBasicRequestError, RequestError.Reason, hasPrefix_append, if_true,
    trimPrefix_append]
  by_cases h : v = "\"\"" ∨ HasSuffix v ": \"\"" = true
  · rw [if_pos ((hasSuffix_contentType v).mpr h), if_pos h]; rfl
  · rw [if_neg (fun hc => h ((hasSuffix_contentType v).mp hc)), if_neg h]; rfl

/-- C5 (counterexample): the value portion `a: ""` is not the literal `""`, yet the title is
"header 'Content-Type' is required". -/
theorem C5_value_ending_in_quotes_reads_as_missing :
    Decode (.requestError (.mk none none
        ("header 'Content-Type' has unexpected value: " ++ "a: \"\"") GoError.nil)) =
        .ok (some { Status := 415, Title := "header 'Content-Type' is required" },
          GoError.nil) ∧
      "a: \"\"" ≠ "\"\"" := by
  decide

/-! ## C6: missing required field rule -/

/-- C6 (amended): for every `RequestError` whose inner error is the required-field sentinel,
`Decode` returns status 400; the title is "Parameter 'name' in location is required" when a
parameter is attached and the reason of the `RequestError` is "value is required but missing",
and the full rendered message of the `RequestError` otherwise. -/
theorem C6_required_rule (parameter : Option Parameter) (requestBody : Option RequestBody)
    (reason : String) :
    Decode (.requestError (.mk parameter requestBody reason GoError.ErrInvalidRequired)) =
      .ok (some { Status := 400,
                  Title :=
                    match parameter with
                    | some p =>
                      if reason = "value is required but missing"
                        then "Parameter '" ++ p.Name ++ "' in " ++ p.In ++ " is required"
                        else (RequestError.mk parameter requestBody reason
                          GoError.ErrInvalidRequired).Error
                    | none =>
                      (RequestError.mk parameter requestBody reason
                        GoError.ErrInvalidRequired).Error }, GoError.nil) := by
  rw [Decode_request_required _ (required_Error_ne parameter requestBody reason) rfl]
  simp only [convertErrInvalidRequired, RequestError.Reason, RequestError.Parameter,
    GoError.Error]
  rcases parameter with _ | p
  · split_ifs <;> rfl
  · split_ifs <;> rfl

/-- C6 (counterexample): with parameter "id" in query attached and reason "custom", the title is
the rendered message of the `RequestError`, not "Parameter 'id' in query is required". -/
theorem C6_other_reason_keeps_rendered_message :
    Decode (.requestError (.mk (some { Name := "id", In := "query", Style := "", Explode := none })
        none "custom" GoError.ErrInvalidRequired)) =
      .ok (some { Status := 400,
                  Title := "parameter \"id\" in query has an error: custom: value is required but missing" },
        GoError.nil) := by
  decide

/-! ## C7: parse rule (a) -/

/-- C7: for every `RequestError` with an attached parameter in location "path" wrapping a
`ParseError` of kind invalid-format, whatever the reasons, value, cause and path, `Decode`
returns status 404 and title "Resource not found with 'name' value: value". -/
theorem C7_path_parameter_format_is_not_found (name style : String) (explode : Option Bool)
    (requestBody : Option RequestBody) (reason : String) (value : GoValue)
    (parseReason : String) (cause : GoError) (path : List GoValue) :
    Decode (.requestError (.mk
        (some { Name := name, In := "path", Style := style, Explode := explode })
        requestBody reason
        (.parseError (.mk ParseErrorKind.KindInvalidFormat value parseReason cause path)))) =
      .ok (some { Status := 404,
                  Title := "Resource not found with '" ++ name ++ "' value: " ++ value.fmtV },
        GoError.nil) := by
  rw [Decode_request_parse _ _ (requestError_Error_parameter_ne _ _ _ _) rfl]
  rw [convertParseError_of_switch _ _
    { Status := 404,
      Title := "Resource not found with '" ++ name ++ "' value: " ++ value.fmtV }
    (by simp [convertParseErrorSwitch, ParseError.Kind, RequestError.Parameter, paramIsIn,
          deref, ParseError.Value, StatusNotFound, Except.map])]
  have hne : "Resource not found with '" ++ name ++ "' value: " ++ value.fmtV ≠ "" :=
    append_ne_empty_left _ (append_ne_empty_left _ (append_ne_empty_left _ (by decide)))
  simp only [hne, if_false, Except.map]

/-! ## C8: parse rule (c) -/

/-- C8: for every `RequestError` with an attached parameter whose location is not "path", wrapping
a `ParseError` of kind invalid-format whose reason is non-empty and does not start with
"unsupported content type", `Decode` returns status 400 and title "Parameter 'name' in location
is invalid: value is reason". -/
theorem C8_invalid_format_parameter (p : Parameter) (requestBody : Option RequestBody)
    (reason : String) (value : GoValue) (parseReason : String) (cause : GoError)
    (path : List GoValue) (hloc : p.In ≠ "path") (hreason : parseReason ≠ "")
    (hct : HasPrefix parseReason "unsupported content type" = false) :
    Decode (.requestError (.mk (some p) requestBody reason
        (.parseError (.mk ParseErrorKind.KindInvalidFormat value parseReason cause path)))) =
      .ok (some { Status := 400,
                  Title := "Parameter '" ++ p.Name ++ "' in " ++ p.In ++ " is invalid: "
                    ++ value.fmtV ++ " is " ++ parseReason },
        GoError.nil) := by
  rw [Decode_request_parse _ _ (requestError_Error_parameter_ne _ _ _ _) rfl]
  rw [convertParseError_of_switch _ _
    { Status := 400,
      Title := "Parameter '" ++ p.Name ++ "' in " ++ p.In ++ " is invalid: "
        ++ value.fmtV ++ " is " ++ parseReason }
    (by simp [convertParseErrorSwitch, ParseError.Kind, RequestError.Parameter, paramIsIn,
          deref, ParseError.Value, ParseError.Reason, StatusBadRequest, Except.map, hloc,
          hreason, hct])]
  have hne : "Parameter '" ++ p.Name ++ "' in " ++ p.In ++ " is invalid: "
      ++ value.fmtV ++ " is " ++ parseReason ≠ "" := by
    repeat apply append_ne_empty_left
    decide
  simp only [hne, if_false, Except.map]

/-- C8 (witness): query parameter "limit" with value TEST and reason "an invalid integer". -/
theorem C8_limit_TEST :
    Decode (.requestError (.mk
        (some { Name := "limit", In := "query", Style := "", Explode := none }) none ""
        (.parseError (.mk ParseErrorKind.KindInvalidFormat (.dyn "TEST" "\"TEST\"")
          "an invalid integer" (.foreign "strconv.ParseFloat: parsing \"TEST\": invalid syntax")
          [])))) =
      .ok (some { Status := 400,
                  Title := "Parameter 'limit' in query is invalid: TEST is an invalid integer" },
        GoError.nil) :=
  C8_invalid_format_parameter { Name := "limit", In := "query", Style := "", Explode := none }
    none "" (.dyn "TEST" "\"TEST\"") "an invalid integer"
    (.foreign "strconv.ParseFloat: parsing \"TEST\": invalid syntax") []
    (by decide) (by decide) (by decide)

/-! ## C9: parse rule (d), query parameter -/

/-- C9 (amended): for every `RequestError` with a query parameter wrapping a `ParseError` to which
rules (b) and (c) do not apply (rule (a) cannot, the location is "query"), whose `RootCause` is
not nil and whose immediate cause is a `ParseError` of kind invalid-format, `Decode` returns
status 400 and title "Parameter 'name' in query is invalid: value is reason" with the value and
reason of the immediate cause. -/
theorem C9_immediate_cause_in_query (p : Parameter) (requestBody : Option RequestBody)
    (reason : String) (innerErr rootErr : ParseError)
    (hloc : p.In = "query")
    (hb : HasPrefix innerErr.Reason "unsupported content type" = false)
    (hc : ¬ (innerErr.Kind = ParseErrorKind.KindInvalidFormat ∧ innerErr.Reason ≠ ""))
    (hroot : innerErr.RootCause ≠ GoError.nil)
    (hcause : innerErr.Cause = GoError.parseError rootErr)
    (hkind : rootErr.Kind = ParseErrorKind.KindInvalidFormat) :
    Decode (.requestError (.mk (some p) requestBody reason (.parseError innerErr))) =
      .ok (some { Status := 400,
                  Title := "Parameter '" ++ p.Name ++ "' in " ++ p.In ++ " is invalid: "
                    ++ rootErr.Value.fmtV ++ " is " ++ rootErr.Reason },
        GoError.nil) := by
  rw [Decode_request_parse _ _ (requestError_Error_parameter_ne _ _ _ _) rfl]
  rw [convertParseError_of_switch _ _
    { Status := 400,
      Title := "Parameter '" ++ p.Name ++ "' in " ++ p.In ++ " is invalid: "
        ++ rootErr.Value.fmtV ++ " is " ++ rootErr.Reason }
    (by
      have hpath : ¬ (p.In = "path") := by rw [hloc]; decide
      simp [convertParseErrorSwitch, RequestError.Parameter, paramIsIn, hloc, hb, hc,
        hcause, hkind, hroot, hpath, deref, Except.map, StatusBadRequest])]
  have hne : "Parameter '" ++ p.Name ++ "' in " ++ p.In ++ " is invalid: "
      ++ rootErr.Value.fmtV ++ " is " ++ rootErr.Reason ≠ "" := by
    repeat apply append_ne_empty_left
    decide
  simp only [hne, if_false, Except.map]

/-- C9 (counterexample): in a chain of two causes, both of kind invalid-format, the title is built
from the immediate cause (value "mid"), not from the root link (value "x"). -/
theorem C9_middle_link_is_reported :
    Decode (.requestError (.mk
        (some { Name := "ids", In := "query", Style := "", Explode := none }) none ""
        (.parseError (.mk ParseErrorKind.KindOther GoValue.nil ""
          (.parseError (.mk ParseErrorKind.KindInvalidFormat (.dyn "mid" "\"mid\"")
            "an invalid item"
            (.parseError (.mk ParseErrorKind.KindInvalidFormat (.dyn "x" "\"x\"")
              "an invalid integer" (.foreign "strconv.ParseFloat: invalid syntax") []))
            [.dyn "0" "0"]))
          [.dyn "1" "1"])))) =
        .ok (some { Status := 400,
                    Title := "Parameter 'ids' in query is invalid: mid is an invalid item" },
          GoError.nil) ∧
      Decode (.requestError (.mk
        (some { Name := "ids", In := "query", Style := "", Explode := none }) none ""
        (.parseError (.mk ParseErrorKind.KindOther GoValue.nil ""
          (.parseError (.mk ParseErrorKind.KindInvalidFormat (.dyn "mid" "\"mid\"")
            "an invalid item"
            (.parseError (.mk ParseErrorKind.KindInvalidFormat (.dyn "x" "\"x\"")
              "an invalid integer" (.foreign "strconv.ParseFloat: invalid syntax") []))
            [.dyn "0" "0"]))
          [.dyn "1" "1"])))) ≠
        .ok (some { Status := 400,
                    Title := "Parameter 'ids' in query is invalid: x is an invalid integer" },
          GoError.nil) := by
  decide

/-- C9 (witness): an array item that is not an integer, a chain of one link. -/
theorem C9_one_link_chain :
    Decode (.requestError (.mk
        (some { Name := "ids", In := "query", Style := "", Explode := none }) none ""
        (.parseError (.mk ParseErrorKind.KindOther GoValue.nil ""
          (.parseError (.mk ParseErrorKind.KindInvalidFormat (.dyn "notAnInt" "\"notAnInt\"")
            "an invalid integer" (.foreign "strconv.ParseFloat: invalid syntax") []))
          [.dyn "1" "1"])))) =
      .ok (some { Status := 400,
                  Title := "Parameter 'ids' in query is invalid: notAnInt is an invalid integer" },
        GoError.nil) :=
  C9_immediate_cause_in_query { Name := "ids", In := "query", Style := "", Explode := none }
    none ""
    (.mk ParseErrorKind.KindOther GoValue.nil ""
      (.parseError (.mk ParseErrorKind.KindInvalidFormat (.dyn "notAnInt" "\"notAnInt\"")
        "an invalid integer" (.foreign "strconv.ParseFloat: invalid syntax") []))
      [.dyn "1" "1"])
    (.mk ParseErrorKind.KindInvalidFormat (.dyn "notAnInt" "\"notAnInt\"")
      "an invalid integer" (.foreign "strconv.ParseFloat: invalid syntax") [])
    (by decide) (by decide) (by decide) (by decide) (by decide) (by decide)

/-! ## C10: parse rule (d), otherwise -/

/-- C10 (amended): for every `RequestError` whose rendered message is not "invalid route", wrapping
a `ParseError` to which rules (a)-(c) do not apply, whose `RootCause` is not nil, and whose
immediate cause is an invalid-format `ParseError` only if a parameter is attached with a location
other than "query", `Decode` returns status 400 and the reason of the outermost `ParseError` as
title, or "Could not parse request body" when that reason is empty. -/
theorem C10_otherwise_title_is_outer_reason (e : RequestError) (innerErr : ParseError)
    (he : e.Err = GoError.parseError innerErr)
    (hmsg : e.Error ≠ "invalid route")
    (ha : ¬ (innerErr.Kind = ParseErrorKind.KindInvalidFormat ∧
      paramIsIn e.Parameter "path" = true))
    (hb : HasPrefix innerErr.Reason "unsupported content type" = false)
    (hc : ¬ (innerErr.Kind = ParseErrorKind.KindInvalidFormat ∧ innerErr.Reason ≠ ""))
    (hroot : innerErr.RootCause ≠ GoError.nil)
    (hcond : ∀ rootErr, innerErr.Cause = GoError.parseError rootErr →
      rootErr.Kind = ParseErrorKind.KindInvalidFormat →
      ∃ p, e.Parameter = some p ∧ p.In ≠ "query") :
    Decode (.requestError e) =
      .ok (some { Status := 400,
                  Title := if innerErr.Reason = "" then "Could not parse request body"
                    else innerErr.Reason },
        GoError.nil) := by
  rw [Decode_request_parse _ _ hmsg he]
  have hsw : convertParseErrorSwitch e innerErr =
      .ok (some { Status := 400, Title := innerErr.Reason }) := by
    simp only [convertParseErrorSwitch, ha, hb, hc, hroot, if_false, if_true, ne_eq,
      not_false_eq_true, Bool.false_eq_true]
    cases hcause : innerErr.Cause with
    | parseError rootErr =>
      by_cases hk : rootErr.Kind = ParseErrorKind.KindInvalidFormat
      · obtain ⟨p, hp, hq⟩ := hcond rootErr hcause hk
        simp [hk, hp, hq, deref, Except.map, StatusBadRequest]
      · simp [hk, StatusBadRequest]
    | _ => simp [StatusBadRequest]
  rw [convertParseError_of_switch _ _ _ hsw]
  by_cases hr : innerErr.Reason = "" <;> simp [hr, Except.map]

/-- C10 (counterexample): with outer reason "outer reason" and root reason "root reason" the title
is "outer reason". -/
theorem C10_outer_reason_is_reported :
    Decode (.requestError (.mk none (some { Required := true }) ""
        (.parseError (.mk ParseErrorKind.KindOther GoValue.nil "outer reason"
          (.parseError (.mk ParseErrorKind.KindOther GoValue.nil "root reason"
            (.foreign "unexpected EOF") []))
          [])))) =
        .ok (some { Status := 400, Title := "outer reason" }, GoError.nil) ∧
      Decode (.requestError (.mk none (some { Required := true }) ""
        (.parseError (.mk ParseErrorKind.KindOther GoValue.nil "outer reason"
          (.parseError (.mk ParseErrorKind.KindOther GoValue.nil "root reason"
            (.foreign "unexpected EOF") []))
          [])))) ≠
        .ok (some { Status := 400, Title := "root reason" }, GoError.nil) := by
  decide

/-- C10 (witness): a request body that is not JSON. -/
theorem C10_undecodable_body :
    Decode (.requestError (.mk none (some { Required := true }) ""
        (.parseError (.mk ParseErrorKind.KindInvalidFormat GoValue.nil ""
          (.foreign "invalid character 'o' in literal null (expecting 'u')") [])))) =
      .ok (some { Status := 400, Title := "Could not parse request body" }, GoError.nil) :=
  C10_otherwise_title_is_outer_reason
    (.mk none (some { Required := true }) ""
      (.parseError (.mk ParseErrorKind.KindInvalidFormat GoValue.nil ""
        (.foreign "invalid character 'o' in literal null (expecting 'u')") [])))
    (.mk ParseErrorKind.KindInvalidFormat GoValue.nil ""
      (.foreign "invalid character 'o' in literal null (expecting 'u')") [])
    rfl (by decide) (by decide) (by decide) (by decide) (by decide)
    (by intro rootErr h; simp [ParseError.Cause] at h)

/-! ## Origin chains of schema errors -/

/-- Induction along the chain of `Origin` schema errors: from the innermost schema error, whose
origin is not a `*SchemaError`, outwards. -/
theorem SchemaError.chain_induction {P : SchemaError → Prop}
    (base : ∀ s : SchemaError, (∀ o, s.Origin ≠ GoError.schemaError o) → P s)
    (step : ∀ (s o : SchemaError), s.Origin = GoError.schemaError o → P o → P s) :
    ∀ s : SchemaError, P s
  | .mk value reversePath schema schemaField reason (.schemaError originErr) =>
    step _ originErr rfl (SchemaError.chain_induction base step originErr)
  | .mk value reversePath schema schemaField reason .nil
  | .mk value reversePath schema schemaField reason .ErrInvalidRequired
  | .mk value reversePath schema schemaField reason (.foreign _)
  | .mk value reversePath schema schemaField reason (.routeError _)
  | .mk value reversePath schema schemaField reason (.requestError _)
  | .mk value reversePath schema schemaField reason (.parseError _) =>
    base _ (by intro o ho; simp [SchemaError.Origin] at ho)

/-- `convertSchemaError` on a schema error whose origin is a `*SchemaError` that converts. -/
theorem convertSchemaError_of_origin_ok (e : RequestError) (s o : SchemaError)
    (c : ValidationError) (h : s.Origin = GoError.schemaError o)
    (hc : convertSchemaError e o = .ok c) :
    convertSchemaError e s = addEnumDetail e s (addSource e s (addStatus e c)) := by
  obtain ⟨value, reversePath, schema, schemaField, reason, origin⟩ := s
  simp only [SchemaError.Origin] at h
  subst h
  rw [convertSchemaError, hc]

/-- `convertSchemaError` hands on the fault of the conversion of its origin. -/
theorem convertSchemaError_of_origin_error (e : RequestError) (s o : SchemaError)
    (f : Fault) (h : s.Origin = GoError.schemaError o)
    (hc : convertSchemaError e o = .error f) :
    convertSchemaError e s = .error f := by
  obtain ⟨value, reversePath, schema, schemaField, reason, origin⟩ := s
  simp only [SchemaError.Origin] at h
  subst h
  rw [convertSchemaError, hc]

/-- `convertSchemaError` on a schema error whose origin is not a `*SchemaError`. -/
theorem convertSchemaError_of_base (e : RequestError) (s : SchemaError)
    (h : ∀ o, s.Origin ≠ GoError.schemaError o) :
    convertSchemaError e s =
      addEnumDetail e s (addSource e s (addStatus e { Title := s.Reason })) := by
  obtain ⟨value, reversePath, schema, schemaField, reason, origin⟩ := s
  simp only [SchemaError.Origin] at h
  rw [convertSchemaError]
  · rfl
  · intro o ho; exact h o ho

/-- A wrapping level adds one to the depth. -/
theorem depth_of_origin (s o : SchemaError) (h : s.Origin = GoError.schemaError o) :
    s.depth = o.depth + 1 := by
  obtain ⟨value, reversePath, schema, schemaField, reason, origin⟩ := s
  simp only [SchemaError.Origin] at h
  subst h
  rw [SchemaError.depth]

/-- The innermost schema error has depth zero. -/
theorem depth_of_base (s : SchemaError) (h : ∀ o, s.Origin ≠ GoError.schemaError o) :
    s.depth = 0 := by
  obtain ⟨value, reversePath, schema, schemaField, reason, origin⟩ := s
  simp only [SchemaError.Origin] at h
  rw [SchemaError.depth]
  intro o ho; exact h o ho

/-- A wrapping level does not change the innermost reason. -/
theorem innermostReason_of_origin (s o : SchemaError)
    (h : s.Origin = GoError.schemaError o) : s.innermostReason = o.innermostReason := by
  obtain ⟨value, reversePath, schema, schemaField, reason, origin⟩ := s
  simp only [SchemaError.Origin] at h
  subst h
  rw [SchemaError.innermostReason]

/-- The innermost reason of the innermost schema error is its own reason. -/
theorem innermostReason_of_base (s : SchemaError)
    (h : ∀ o, s.Origin ≠ GoError.schemaError o) : s.innermostReason = s.Reason := by
  obtain ⟨value, reversePath, schema, schemaField, reason, origin⟩ := s
  simp only [SchemaError.Origin] at h
  rw [SchemaError.innermostReason]
  · rfl
  · intro o ho; exact h o ho

/-- Unfolding of `hasSchemas` at a wrapping level. -/
theorem hasSchemas_of_origin (s o : SchemaError) (h : s.Origin = GoError.schemaError o) :
    s.hasSchemas = (s.Schema.isSome && o.hasSchemas) := by
  obtain ⟨value, reversePath, schema, schemaField, reason, origin⟩ := s
  simp only [SchemaError.Origin] at h
  subst h
  rw [SchemaError.hasSchemas]; rfl

/-- Unfolding of `hasSchemas` at the innermost schema error. -/
theorem hasSchemas_of_base (s : SchemaError) (h : ∀ o, s.Origin ≠ GoError.schemaError o) :
    s.hasSchemas = s.Schema.isSome := by
  obtain ⟨value, reversePath, schema, schemaField, reason, origin⟩ := s
  simp only [SchemaError.Origin] at h
  rw [SchemaError.hasSchemas]
  · rfl
  · intro o ho; exact h o ho

/-- A result of `convertSchemaError` comes out of the status, source and enum steps of the
outermost level. -/
theorem convertSchemaError_last_step (e : RequestError) (s : SchemaError)
    (v : ValidationError) (h : convertSchemaError e s = .ok v) :
    ∃ c, addEnumDetail e s (addSource e s (addStatus e c)) = .ok v := by
  by_cases hO : ∃ o, s.Origin = GoError.schemaError o
  · obtain ⟨o, ho⟩ := hO
    cases hc : convertSchemaError e o with
    | error f => rw [convertSchemaError_of_origin_error e s o f ho hc] at h; cases h
    | ok c => exact ⟨c, by rw [← convertSchemaError_of_origin_ok e s o c ho hc]; exact h⟩
  · refine ⟨{ Title := s.Reason }, ?_⟩
    rw [← convertSchemaError_of_base e s (fun o ho => hO ⟨o, ho⟩)]
    exact h

/-! ## The steps of `convertSchemaError` -/

/-- The enum step changes neither the source nor the fields `Id` and `Code`. -/
theorem addEnumDetail_source (e : RequestError) (s : SchemaError) (c v : ValidationError)
    (h : addEnumDetail e s c = .ok v) :
    v.Source = c.Source ∧ v.Id = c.Id ∧ v.Code = c.Code := by
  unfold addEnumDetail at h
  split_ifs at h with h1
  · split at h
    · cases h
    · split at h
      · cases h
      · dsimp only at h
        split_ifs at h <;> (cases h; exact ⟨rfl, rfl, rfl⟩)
  · cases h; exact ⟨rfl, rfl, rfl⟩

/-- The status step does not change the source. -/
theorem addStatus_source (e : RequestError) (c : ValidationError) :
    (addStatus e c).Source = c.Source := by
  unfold addStatus
  split <;> rfl

/-- The status step with a parameter attached. -/
theorem addStatus_parameter (e : RequestError) (c : ValidationError) (p : Parameter)
    (h : e.Parameter = some p) : (addStatus e c).Status = 400 := by
  unfold addStatus
  rw [h]
  rfl

/-- The status step with a request body and no parameter attached. -/
theorem addStatus_body (e : RequestError) (c : ValidationError) (b : RequestBody)
    (hp : e.Parameter = none) (hb : e.RequestBody = some b) :
    (addStatus e c).Status = 422 := by
  unfold addStatus
  rw [hp, hb]
  rfl

/-- The source step with a query parameter attached. -/
theorem addSource_query (e : RequestError) (s : SchemaError) (c : ValidationError)
    (p : Parameter) (h : e.Parameter = some p) (hq : p.In = "query") :
    addSource e s c =
      { c with Source := some { Parameter := p.Name }, Title := c.Title ++ " See " ++ p.Name } := by
  unfold addSource
  rw [h]
  simp [hq]

/-- The source step keeps the fields of the source exclusive. -/
theorem addSource_exclusive (e : RequestError) (s : SchemaError) (c : ValidationError)
    (hc : ∀ src, c.Source = some src → src.Parameter = "" ∨ src.Pointer = "") :
    ∀ src, (addSource e s c).Source = some src → src.Parameter = "" ∨ src.Pointer = "" := by
  intro src hsrc
  unfold addSource at hsrc
  rcases hp : e.Parameter with _ | p <;> rw [hp] at hsrc <;> simp only at hsrc <;>
    split_ifs at hsrc
  · simp only [Option.some.injEq] at hsrc; subst hsrc; exact Or.inl rfl
  · exact hc src hsrc
  · simp only [Option.some.injEq] at hsrc; subst hsrc; exact Or.inr rfl
  · simp only [Option.some.injEq] at hsrc; subst hsrc; exact Or.inl rfl
  · exact hc src hsrc

/-- The enum step returns when a parameter is attached and the schema is present. -/
theorem addEnumDetail_returns (e : RequestError) (s : SchemaError) (c : ValidationError)
    (p : Parameter) (hp : e.Parameter = some p) (hs : s.Schema.isSome = true) :
    ∃ v, addEnumDetail e s c = .ok v := by
  obtain ⟨sc, hsc⟩ := Option.isSome_iff_exists.mp hs
  unfold addEnumDetail
  rw [hp, hsc]
  dsimp only
  split_ifs <;> exact ⟨_, rfl⟩

/-- The enum step on an enum violation, with a parameter attached and the schema present. -/
theorem addEnumDetail_enum (e : RequestError) (s : SchemaError) (c : ValidationError)
    (p : Parameter) (sc : Schema) (hp : e.Parameter = some p) (hs : s.Schema = some sc)
    (hf : s.SchemaField = "enum")
    (hr : s.Reason = "JSON value is not one of the allowed values") :
    addEnumDetail e s c =
      .ok { c with
            Detail :=
              if (p.Explode = none ∨ p.Explode = some true) ∧
                  (p.Style = "" ∨ p.Style = "form") ∧ Contains s.Value.fmtV "," = true
              then
                "Value '" ++ s.Value.fmtV ++ "' at " ++ toJSONPointer s.JSONPointer
                  ++ " must be one of: " ++ Join (sc.Enum.map GoValue.fmtV) ", " ++ "; "
                  ++ ("perhaps you intended '?" ++ p.Name ++ "="
                    ++ Join (Split s.Value.fmtV ',') ("&" ++ p.Name ++ "=") ++ "'")
              else
                "Value '" ++ s.Value.fmtV ++ "' at " ++ toJSONPointer s.JSONPointer
                  ++ " must be one of: " ++ Join (sc.Enum.map GoValue.fmtV) ", " } := by
  unfold addEnumDetail
  rw [hp, hs, if_pos ⟨hf, hr⟩]
  dsimp only
  split_ifs <;> rfl

/-- The enum step does nothing on a schema error that is not an enum violation. -/
theorem addEnumDetail_skip (e : RequestError) (s : SchemaError) (c : ValidationError)
    (h : ¬ (s.SchemaField = "enum" ∧
      s.Reason = "JSON value is not one of the allowed values")) :
    addEnumDetail e s c = .ok c := by
  unfold addEnumDetail
  rw [if_neg h]

/-- Appending a non-empty string changes a string. -/
theorem append_left_ne_self (a b : String) (hb : b ≠ "") : a ++ b ≠ a := by
  intro h
  apply hb
  have h1 : a.data ++ b.data = a.data := by rw [← String.data_append, h]
  exact String.ext (List.append_right_eq_self.mp h1)

/-- One more suffix is appended at the end. -/
theorem seeSuffixes_succ (n : Nat) (name : String) :
    seeSuffixes (n + 1) name = seeSuffixes n name ++ (" See " ++ name) := by
  simp only [seeSuffixes, String.join, List.replicate_succ', List.foldl_append, List.foldl_cons,
    List.foldl_nil]

/-- No suffix is the empty text. -/
theorem seeSuffixes_zero (name : String) : seeSuffixes 0 name = "" := rfl

/-- Status of a result of `convertSchemaError`. -/
theorem convertSchemaError_status (e : RequestError) (s : SchemaError) (v : ValidationError)
    (h : convertSchemaError e s = .ok v) :
    (∀ p, e.Parameter = some p → v.Status = 400) ∧
      (e.Parameter = none → ∀ b, e.RequestBody = some b → v.Status = 422) := by
  obtain ⟨c, hc⟩ := convertSchemaError_last_step e s v h
  obtain ⟨hs, _⟩ := addEnumDetail_frame _ _ _ _ hc
  rw [hs, addSource_status]
  exact ⟨fun p hp => addStatus_parameter e c p hp,
    fun hp b hb => addStatus_body e c b hp hb⟩

/-- In a result of `convertSchemaError` the source never has both fields set. -/
theorem convertSchemaError_source_exclusive (e : RequestError) :
    ∀ (s : SchemaError) (v : ValidationError), convertSchemaError e s = .ok v →
      ∀ src, v.Source = some src → src.Parameter = "" ∨ src.Pointer = "" := by
  intro s
  induction s using SchemaError.chain_induction with
  | base s hs =>
    intro v h
    rw [convertSchemaError_of_base e s hs] at h
    rw [(addEnumDetail_source _ _ _ _ h).1]
    apply addSource_exclusive
    rw [addStatus_source]
    intro src hsrc
    cases hsrc
  | step s o ho ih =>
    intro v h
    cases hc : convertSchemaError e o with
    | error f => rw [convertSchemaError_of_origin_error e s o f ho hc] at h; cases h
    | ok c =>
      rw [convertSchemaError_of_origin_ok e s o c ho hc] at h
      rw [(addEnumDetail_source _ _ _ _ h).1]
      apply addSource_exclusive
      rw [addStatus_source]
      exact ih c hc

/-- Source of a result of `convertSchemaError` under a query parameter. -/
theorem convertSchemaError_source_query (e : RequestError) (s : SchemaError)
    (v : ValidationError) (p : Parameter) (h : convertSchemaError e s = .ok v)
    (hp : e.Parameter = some p) (hq : p.In = "query") :
    v.Source = some { Parameter := p.Name, Pointer := "" } := by
  obtain ⟨c, hc⟩ := convertSchemaError_last_step e s v h
  rw [(addEnumDetail_source _ _ _ _ hc).1, addSource_query e s _ p hp hq]

/-- Title of a result of `convertSchemaError` under a query parameter: one suffix per level. -/
theorem convertSchemaError_title_query (e : RequestError) (p : Parameter)
    (hp : e.Parameter = some p) (hq : p.In = "query") :
    ∀ (s : SchemaError) (v : ValidationError), convertSchemaError e s = .ok v →
      v.Title = s.innermostReason ++ seeSuffixes (s.depth + 1) p.Name := by
  intro s
  induction s using SchemaError.chain_induction with
  | base s hs =>
    intro v h
    rw [convertSchemaError_of_base e s hs] at h
    rw [(addEnumDetail_frame _ _ _ _ h).2, addSource_query e s _ p hp hq]
    simp only [addStatus_title, innermostReason_of_base s hs, depth_of_base s hs,
      seeSuffixes_succ, seeSuffixes_zero, String.append_assoc, String.empty_append]
  | step s o ho ih =>
    intro v h
    cases hc : convertSchemaError e o with
    | error f => rw [convertSchemaError_of_origin_error e s o f ho hc] at h; cases h
    | ok c =>
      rw [convertSchemaError_of_origin_ok e s o c ho hc] at h
      rw [(addEnumDetail_frame _ _ _ _ h).2, addSource_query e s _ p hp hq]
      simp only [addStatus_title, ih c hc, innermostReason_of_origin s o ho,
        depth_of_origin s o ho, seeSuffixes_succ (o.depth + 1), String.append_assoc]

/-- `convertSchemaError` returns when a parameter is attached and every level carries its schema. -/
theorem convertSchemaError_returns (e : RequestError) (p : Parameter)
    (hp : e.Parameter = some p) :
    ∀ s : SchemaError, s.hasSchemas = true → ∃ v, convertSchemaError e s = .ok v := by
  intro s
  induction s using SchemaError.chain_induction with
  | base s hs =>
    intro h
    rw [hasSchemas_of_base s hs] at h
    rw [convertSchemaError_of_base e s hs]
    exact addEnumDetail_returns e s _ p hp h
  | step s o ho ih =>
    intro h
    rw [hasSchemas_of_origin s o ho, Bool.and_eq_true] at h
    obtain ⟨c, hc⟩ := ih h.2
    rw [convertSchemaError_of_origin_ok e s o c ho hc]
    exact addEnumDetail_returns e s _ p hp h.1

/-- A result of `Decode` on a `RequestError` wrapping a `SchemaError` is the result of
`convertSchemaError`. -/
theorem Decode_schema_result (e : RequestError) (s : SchemaError) (v : ValidationError)
    (hmsg : e.Error ≠ "invalid route") (he : e.Err = GoError.schemaError s)
    (h : Decode (.requestError e) = .ok (some v, GoError.nil)) :
    convertSchemaError e s = .ok v := by
  rw [Decode_request_schema e s hmsg he] at h
  cases hc : convertSchemaError e s with
  | error f => rw [hc] at h; cases h
  | ok c => rw [hc] at h; cases h; rfl

/-- A result of `convertSchemaError` is returned by `Decode`. -/
theorem Decode_schema_of_result (e : RequestError) (s : SchemaError) (v : ValidationError)
    (hmsg : e.Error ≠ "invalid route") (he : e.Err = GoError.schemaError s)
    (h : convertSchemaError e s = .ok v) :
    Decode (.requestError e) = .ok (some v, GoError.nil) := by
  rw [Decode_request_schema e s hmsg he, h]
  rfl

/-! ## Frame of the other conversion functions -/

/-- The root cause of a parse error whose cause is not a `*ParseError` is that cause. -/
theorem rootCause_of_not_parse (innerErr : ParseError)
    (h : ∀ c, innerErr.Cause ≠ GoError.parseError c) : innerErr.RootCause = innerErr.Cause := by
  obtain ⟨kind, value, reason, cause, path⟩ := innerErr
  simp only [ParseError.Cause] at h
  rw [ParseError.RootCause]
  · rfl
  · intro v hv; exact h v hv

/-- Every case of the `switch` of `convertParseError` sets status and title only. -/
theorem convertParseErrorSwitch_frame (e : RequestError) (innerErr : ParseError)
    (c : ValidationError) (h : convertParseErrorSwitch e innerErr = .ok (some c)) :
    c.Detail = "" ∧ c.Source = none ∧ c.Id = "" ∧ c.Code = "" := by
  have hfin : ∀ (status : Int) (title : String),
      (Except.ok (some { Status := status, Title := title }) :
        Except Fault (Option ValidationError)) = .ok (some c) →
      c.Detail = "" ∧ c.Source = none ∧ c.Id = "" ∧ c.Code = "" := by
    intro status title heq
    cases heq
    exact ⟨rfl, rfl, rfl, rfl⟩
  unfold convertParseErrorSwitch at h
  rcases hp : e.Parameter with _ | p <;> rw [hp] at h <;>
    simp only [deref, Except.map, paramIsIn] at h <;>
    split_ifs at h <;> first
      | exact hfin _ _ h
      | (cases h)
      | (split at h <;> first
          | exact hfin _ _ h
          | (cases h)
          | (split_ifs at h <;> exact hfin _ _ h))

/-- A result of `convertParseError` has no detail and no source. -/
theorem convertParseError_frame (e : RequestError) (innerErr : ParseError)
    (v : ValidationError) (h : convertParseError e innerErr = .ok v) :
    v.Detail = "" ∧ v.Source = none ∧ v.Id = "" ∧ v.Code = "" := by
  unfold convertParseError at h
  split at h
  · cases h
  · cases h
  · rename_i c hsw
    have hfr := convertParseErrorSwitch_frame e innerErr c hsw
    split_ifs at h with ht
    · cases h; exact hfr
    · cases h; exact hfr

/-- The result of `convertRouteError` has no detail and no source. -/
theorem convertRouteError_frame (e : RouteError) :
    (convertRouteError e).Detail = "" ∧ (convertRouteError e).Source = none ∧
      (convertRouteError e).Id = "" ∧ (convertRouteError e).Code = "" := by
  unfold convertRouteError
  split_ifs <;> exact ⟨rfl, rfl, rfl, rfl⟩

/-- The result of `convertBasicRequestError` has no detail and no source. -/
theorem convertBasicRequestError_frame (e : RequestError) :
    (convertBasicRequestError e).Detail = "" ∧ (convertBasicRequestError e).Source = none ∧
      (convertBasicRequestError e).Id = "" ∧ (convertBasicRequestError e).Code = "" := by
  unfold convertBasicRequestError
  dsimp only
  split_ifs <;> exact ⟨rfl, rfl, rfl, rfl⟩

/-- The result of `convertErrInvalidRequired` has no detail and no source. -/
theorem convertErrInvalidRequired_frame (e : RequestError) :
    (convertErrInvalidRequired e).Detail = "" ∧ (convertErrInvalidRequired e).Source = none ∧
      (convertErrInvalidRequired e).Id = "" ∧ (convertErrInvalidRequired e).Code = "" := by
  unfold convertErrInvalidRequired
  dsimp only
  split_ifs
  · split <;> exact ⟨rfl, rfl, rfl, rfl⟩
  · exact ⟨rfl, rfl, rfl, rfl⟩

/-! ## The branches of the handler -/

/-- The route lookup branch answers an undecoded error with the generic response. -/
theorem onFindRouteError_unrecognized (err errDecode : GoError)
    (h : Decode err = .ok (none, errDecode)) (hne : errDecode ≠ GoError.nil) :
    onFindRouteError err = .ok (.abortWithStatusJSON 500 "internal server error") := by
  simp [onFindRouteError, h, hne, StatusInternalServerError]

/-- The request validation branch reads the status through the nil result of an undecoded
error. -/
theorem onValidateRequestError_unrecognized (err errDecode : GoError)
    (h : Decode err = .ok (none, errDecode)) :
    onValidateRequestError err = .error Fault.nilDereference := by
  simp [onValidateRequestError, h, decodedIsSet, deref, Except.map]

/-! ## C11: no parse rule matched -/

/-- C11 (evaluation at the failing inputs): on a `RequestError` wrapping a `ParseError` that matches
none of the rules (a)-(d), kind not invalid-format, reason not starting with "unsupported
content type", no cause, `Decode` does not return the fallback title: `cErr` is nil after the
`switch` and reading `cErr.Title` faults. -/
theorem C11_no_rule_matched_faults :
    Decode (.requestError (.mk none (some { Required := true }) "failed to decode request body"
        (.parseError (.mk ParseErrorKind.KindOther GoValue.nil "unexpected end of input"
          GoError.nil [])))) =
        .error Fault.nilDereference ∧
      Decode (.requestError (.mk
        (some { Name := "filter", In := "query", Style := "", Explode := none }) none ""
        (.parseError (.mk ParseErrorKind.KindUnsupportedFormat GoValue.nil "" GoError.nil
          [])))) =
        .error Fault.nilDereference := by
  decide

/-! ## C12: undecodable request body -/

/-- C12: for every `RequestError` with no path parameter, wrapping a `ParseError` whose reason is
empty and whose cause is present and is not a `*ParseError` (an undecodable request body),
`Decode` returns status 400 and title "Could not parse request body". The input passes the first
dispatch step of `Decode`, its rendered message is not "invalid route": with a request body or a
parameter attached that is always so (`requestError_Error_body_ne`,
`requestError_Error_parameter_ne`). -/
theorem C12_undecodable_body_fallback (e : RequestError) (innerErr : ParseError)
    (he : e.Err = GoError.parseError innerErr)
    (hmsg : e.Error ≠ "invalid route")
    (hpath : paramIsIn e.Parameter "path" = false)
    (hreason : innerErr.Reason = "")
    (hcause : innerErr.Cause ≠ GoError.nil)
    (hnp : ∀ c, innerErr.Cause ≠ GoError.parseError c) :
    Decode (.requestError e) =
      .ok (some { Status := 400, Title := "Could not parse request body" }, GoError.nil) := by
  rw [Decode_request_parse _ _ hmsg he]
  have hsw : convertParseErrorSwitch e innerErr =
      .ok (some { Status := 400, Title := innerErr.Reason }) := by
    have hroot : innerErr.RootCause ≠ GoError.nil := by
      rw [rootCause_of_not_parse innerErr hnp]; exact hcause
    have hb : HasPrefix "" "unsupported content type" = false := by decide
    simp only [convertParseErrorSwitch, hpath, hreason, hb, hroot, ne_eq, not_true_eq_false,
      and_false, if_false, if_true, not_false_eq_true, Bool.false_eq_true]
    cases hc : innerErr.Cause with
    | parseError c => exact absurd hc (hnp c)
    | _ => simp [StatusBadRequest]
  rw [convertParseError_of_switch _ _ _ hsw]
  simp [hreason, Except.map]

/-- C12 (witness): a request body that is not JSON, sent with a content type. -/
theorem C12_not_json_with_content_type :
    Decode (.requestError (.mk none (some { Required := true })
        "failed to decode request body"
        (.parseError (.mk ParseErrorKind.KindInvalidFormat GoValue.nil ""
          (.foreign "invalid character 'o' in literal null (expecting 'u')") [])))) =
      .ok (some { Status := 400, Title := "Could not parse request body" }, GoError.nil) :=
  C12_undecodable_body_fallback
    (.mk none (some { Required := true }) "failed to decode request body"
      (.parseError (.mk ParseErrorKind.KindInvalidFormat GoValue.nil ""
        (.foreign "invalid character 'o' in literal null (expecting 'u')") [])))
    (.mk ParseErrorKind.KindInvalidFormat GoValue.nil ""
      (.foreign "invalid character 'o' in literal null (expecting 'u')") [])
    rfl (by decide) (by decide) (by decide) (by decide)
    (by intro c hc; simp [ParseError.Cause] at hc)

/-! ## C13: status of a schema violation -/

/-- C13: for every `RequestError` wrapping a `SchemaError`, with an origin chain of any depth, on
which `Decode` returns a result, the status is 400 if a parameter is attached and otherwise 422
if a request body is attached; the schema error does not enter the status. -/
theorem C13_status_from_request_error (e : RequestError) (s : SchemaError)
    (v : ValidationError) (he : e.Err = GoError.schemaError s)
    (h : Decode (.requestError e) = .ok (some v, GoError.nil)) :
    (e.Parameter ≠ none → v.Status = 400) ∧
      (e.Parameter = none → e.RequestBody ≠ none → v.Status = 422) := by
  obtain ⟨parameter, requestBody, reason, err⟩ := e
  simp only [RequestError.Parameter, RequestError.RequestBody]
  rcases parameter with _ | p
  · rcases requestBody with _ | b
    · simp
    · have hc := Decode_schema_result _ s v (requestError_Error_body_ne none b reason err) he h
      have hst := (convertSchemaError_status _ s v hc).2 rfl b rfl
      simp [hst]
  · have hc := Decode_schema_result _ s v (requestError_Error_parameter_ne p _ reason err) he h
    have hst := (convertSchemaError_status _ s v hc).1 p rfl
    simp [hst]

/-- C13 (witness): a body field of the wrong type, reported through an origin, status 422. -/
theorem C13_wrong_body_type :
    Decode (.requestError (.mk none (some { Required := true }) ""
        (.schemaError (.mk GoValue.nil [] (some { Enum := [], json := "\x7b\x7d\n" })
          "properties" "doesn't match the schema"
          (.schemaError (.mk (.dyn "I am a string" "\"I am a string\"\n") ["age"]
            (some { Enum := [], json := "\x7b\x7d\n" })
            "type" "Field must be set to integer or not be present" GoError.nil)))))) =
        .ok (some { Status := 422,
                    Title := "Field must be set to integer or not be present See /age",
                    Source := some { Pointer := "/age" } }, GoError.nil) ∧
      ({ Status := 422, Title := "Field must be set to integer or not be present See /age",
         Source := some { Pointer := "/age" } } : ValidationError).Status = 422 :=
  ⟨by decide,
   (C13_status_from_request_error
    (.mk none (some { Required := true }) ""
      (.schemaError (.mk GoValue.nil [] (some { Enum := [], json := "\x7b\x7d\n" })
        "properties" "doesn't match the schema"
        (.schemaError (.mk (.dyn "I am a string" "\"I am a string\"\n") ["age"]
          (some { Enum := [], json := "\x7b\x7d\n" })
          "type" "Field must be set to integer or not be present" GoError.nil)))))
    (.mk GoValue.nil [] (some { Enum := [], json := "\x7b\x7d\n" })
      "properties" "doesn't match the schema"
      (.schemaError (.mk (.dyn "I am a string" "\"I am a string\"\n") ["age"]
        (some { Enum := [], json := "\x7b\x7d\n" })
        "type" "Field must be set to integer or not be present" GoError.nil)))
    { Status := 422, Title := "Field must be set to integer or not be present See /age",
      Source := some { Pointer := "/age" } }
    rfl (by decide)).2 rfl (by decide)⟩

/-! ## C14: source of a schema violation -/

/-- C14: for every `RequestError` wrapping a `SchemaError`, with an origin chain of any depth, the
source of a result of `Decode` never has both `Parameter` and `Pointer` set; when the attached
parameter is in query, the source is the parameter name with an empty pointer. -/
theorem C14_source_parameter_or_pointer (e : RequestError) (s : SchemaError)
    (v : ValidationError) (he : e.Err = GoError.schemaError s)
    (h : Decode (.requestError e) = .ok (some v, GoError.nil)) :
    (∀ src, v.Source = some src → src.Parameter = "" ∨ src.Pointer = "") ∧
      (∀ p, e.Parameter = some p → p.In = "query" →
        v.Source = some { Parameter := p.Name, Pointer := "" }) := by
  by_cases hmsg : e.Error = "invalid route"
  · rw [Decode_invalid_route (.requestError e) (by simp) hmsg] at h
    cases h
    obtain ⟨parameter, requestBody, reason, err⟩ := e
    constructor
    · intro src hsrc; cases hsrc
    · intro p hp
      simp only [RequestError.Parameter] at hp
      subst hp
      exact absurd hmsg (requestError_Error_parameter_ne p _ _ _)
  · have hc := Decode_schema_result e s v hmsg he h
    exact ⟨convertSchemaError_source_exclusive e s v hc,
      fun p hp hq => convertSchemaError_source_query e s v p hc hp hq⟩

/-- C14 (witness): a query parameter and location paths at both levels of the chain; the source
names the parameter. -/
theorem C14_query_parameter_wins :
    Decode (.requestError (.mk
        (some { Name := "filter", In := "query", Style := "", Explode := none }) none ""
        (.schemaError (.mk GoValue.nil ["items"] (some { Enum := [], json := "\x7b\x7d\n" })
          "properties" "doesn't match the schema"
          (.schemaError (.mk (.dyn "x" "\"x\"\n") ["age", "items"]
            (some { Enum := [], json := "\x7b\x7d\n" })
            "type" "Field must be set to integer or not be present" GoError.nil)))))) =
        .ok (some { Status := 400,
                    Title := "Field must be set to integer or not be present See filter See filter",
                    Source := some { Parameter := "filter" } }, GoError.nil) ∧
      ({ Status := 400,
         Title := "Field must be set to integer or not be present See filter See filter",
         Source := some { Parameter := "filter" } } : ValidationError).Source =
        some { Parameter := "filter", Pointer := "" } :=
  ⟨by decide,
   (C14_source_parameter_or_pointer
    (.mk (some { Name := "filter", In := "query", Style := "", Explode := none }) none ""
      (.schemaError (.mk GoValue.nil ["items"] (some { Enum := [], json := "\x7b\x7d\n" })
        "properties" "doesn't match the schema"
        (.schemaError (.mk (.dyn "x" "\"x\"\n") ["age", "items"]
          (some { Enum := [], json := "\x7b\x7d\n" })
          "type" "Field must be set to integer or not be present" GoError.nil)))))
    (.mk GoValue.nil ["items"] (some { Enum := [], json := "\x7b\x7d\n" })
      "properties" "doesn't match the schema"
      (.schemaError (.mk (.dyn "x" "\"x\"\n") ["age", "items"]
        (some { Enum := [], json := "\x7b\x7d\n" })
        "type" "Field must be set to integer or not be present" GoError.nil)))
    { Status := 400,
      Title := "Field must be set to integer or not be present See filter See filter",
      Source := some { Parameter := "filter" } }
    rfl (by decide)).2
    { Name := "filter", In := "query", Style := "", Explode := none } rfl rfl⟩

/-! ## C15: pointer of a body violation -/

/-- C15: for every `RequestError` with a request body and no parameter, wrapping a `SchemaError`
whose origin is not a `*SchemaError`, whose reason R is not the enum reason and whose location
path `JSONPointer()` is a non-empty list, `Decode` returns status 422, the pointer "/" followed
by the segments of the path in their order joined by "/", and the title R, " See " and that
pointer. -/
theorem C15_body_pointer_in_path_order (b : RequestBody) (r : String) (s : SchemaError)
    (path : List String)
    (horigin : ∀ o, s.Origin ≠ GoError.schemaError o)
    (hreason : s.Reason ≠ "JSON value is not one of the allowed values")
    (hpath : s.JSONPointer = path) (hne : path ≠ []) :
    Decode (.requestError (.mk none (some b) r (.schemaError s))) =
      .ok (some { Status := 422,
                  Title := s.Reason ++ " See " ++ ("/" ++ Join path "/"),
                  Source := some { Pointer := "/" ++ Join path "/" } }, GoError.nil) := by
  apply Decode_schema_of_result _ s _ (requestError_Error_body_ne none b r _) rfl
  rw [convertSchemaError_of_base _ s horigin,
    addEnumDetail_skip _ _ _ (fun hc => hreason hc.2)]
  simp only [addSource, addStatus, RequestError.Parameter, RequestError.RequestBody, hpath,
    hne, ne_eq, not_false_eq_true, if_true, toJSONPointer, StatusUnprocessableEntity]

/-- C15 (witness): reason `property "name" is missing` at path [name]. -/
theorem C15_missing_name :
    Decode (.requestError (.mk none (some { Required := true }) ""
        (.schemaError (.mk GoValue.nil ["name"] (some { Enum := [], json := "\x7b\x7d\n" })
          "required" "property \"name\" is missing" GoError.nil)))) =
      .ok (some { Status := 422, Title := "property \"name\" is missing See /name",
                  Source := some { Pointer := "/name" } }, GoError.nil) :=
  C15_body_pointer_in_path_order { Required := true } ""
    (.mk GoValue.nil ["name"] (some { Enum := [], json := "\x7b\x7d\n" })
      "required" "property \"name\" is missing" GoError.nil)
    ["name"]
    (by intro o ho; simp [SchemaError.Origin] at ho) (by decide) (by decide) (by decide)

/-! ## C16: enum detail -/

/-- C16 (evaluation at the failing input): for the enum violation of the claim, value bogus, enum
[a, b], path [status], under a `RequestError` with a request body and no parameter, `Decode`
faults: the enum step reads `e.Parameter.Explode` through the nil `e.Parameter`. With a
parameter attached the same schema error gets the detail "Value 'bogus' at /status must be one
of: a, b". -/
theorem C16_enum_under_request_body_faults :
    Decode (.requestError (.mk none (some { Required := true }) ""
        (.schemaError (.mk (.dyn "bogus" "\"bogus\"\n") ["status"]
          (some { Enum := [.dyn "a" "\"a\"\n", .dyn "b" "\"b\"\n"], json := "\x7b\x7d\n" })
          "enum" "JSON value is not one of the allowed values" GoError.nil)))) =
        .error Fault.nilDereference ∧
      Decode (.requestError (.mk
        (some { Name := "status", In := "header", Style := "simple", Explode := some false })
        none ""
        (.schemaError (.mk (.dyn "bogus" "\"bogus\"\n") ["status"]
          (some { Enum := [.dyn "a" "\"a\"\n", .dyn "b" "\"b\"\n"], json := "\x7b\x7d\n" })
          "enum" "JSON value is not one of the allowed values" GoError.nil)))) =
        .ok (some { Status := 400,
                    Title := "JSON value is not one of the allowed values See /status",
                    Detail := "Value 'bogus' at /status must be one of: a, b",
                    Source := some { Pointer := "/status" } }, GoError.nil) := by
  decide

/-! ## C17: suggestion clause -/

/-- C17: for every `RequestError` with an attached parameter named n wrapping an enum violation
that carries its schema, with rendered value v: the detail of a result of `Decode` is the
"must be one of" sentence followed by "; perhaps you intended '?n=v1&n=v2&...'" (v split at
commas) when explode is unset or true, style is unset or "form" and v contains a comma, and the
sentence alone otherwise; the detail is the sentence alone exactly when that condition fails;
and `Decode` returns a result when every level of the origin chain carries its schema. -/
theorem C17_suggestion_clause (p : Parameter) (b : Option RequestBody) (r : String)
    (s : SchemaError) (sc : Schema)
    (hs : s.Schema = some sc) (hf : s.SchemaField = "enum")
    (hr : s.Reason = "JSON value is not one of the allowed values") :
    (∀ v, Decode (.requestError (.mk (some p) b r (.schemaError s))) =
          .ok (some v, GoError.nil) →
        v.Detail =
          if (p.Explode = none ∨ p.Explode = some true) ∧
              (p.Style = "" ∨ p.Style = "form") ∧ Contains s.Value.fmtV "," = true
          then
            "Value '" ++ s.Value.fmtV ++ "' at " ++ toJSONPointer s.JSONPointer
              ++ " must be one of: " ++ Join (sc.Enum.map GoValue.fmtV) ", " ++ "; "
              ++ ("perhaps you intended '?" ++ p.Name ++ "="
                ++ Join (Split s.Value.fmtV ',') ("&" ++ p.Name ++ "=") ++ "'")
          else
            "Value '" ++ s.Value.fmtV ++ "' at " ++ toJSONPointer s.JSONPointer
              ++ " must be one of: " ++ Join (sc.Enum.map GoValue.fmtV) ", ") ∧
      (∀ v, Decode (.requestError (.mk (some p) b r (.schemaError s))) =
          .ok (some v, GoError.nil) →
        (v.Detail =
            "Value '" ++ s.Value.fmtV ++ "' at " ++ toJSONPointer s.JSONPointer
              ++ " must be one of: " ++ Join (sc.Enum.map GoValue.fmtV) ", " ↔
          ¬ ((p.Explode = none ∨ p.Explode = some true) ∧
              (p.Style = "" ∨ p.Style = "form") ∧ Contains s.Value.fmtV "," = true))) ∧
      (s.hasSchemas = true →
        ∃ v, Decode (.requestError (.mk (some p) b r (.schemaError s))) =
          .ok (some v, GoError.nil)) := by
  have hdetail : ∀ v, Decode (.requestError (.mk (some p) b r (.schemaError s))) =
        .ok (some v, GoError.nil) →
      v.Detail =
        if (p.Explode = none ∨ p.Explode = some true) ∧
            (p.Style = "" ∨ p.Style = "form") ∧ Contains s.Value.fmtV "," = true
        then
          "Value '" ++ s.Value.fmtV ++ "' at " ++ toJSONPointer s.JSONPointer
            ++ " must be one of: " ++ Join (sc.Enum.map GoValue.fmtV) ", " ++ "; "
            ++ ("perhaps you intended '?" ++ p.Name ++ "="
              ++ Join (Split s.Value.fmtV ',') ("&" ++ p.Name ++ "=") ++ "'")
        else
          "Value '" ++ s.Value.fmtV ++ "' at " ++ toJSONPointer s.JSONPointer
            ++ " must be one of: " ++ Join (sc.Enum.map GoValue.fmtV) ", " := by
    intro v h
    have hc := Decode_schema_result _ s v (requestError_Error_parameter_ne p b r _) rfl h
    obtain ⟨c, hstep⟩ := convertSchemaError_last_step _ s v hc
    rw [addEnumDetail_enum (.mk (some p) b r (.schemaError s)) s _ p sc rfl hs hf hr] at hstep
    cases hstep
    rfl
  refine ⟨hdetail, ?_, ?_⟩
  · intro v h
    rw [hdetail v h]
    split_ifs with hcond
    · constructor
      · intro heq
        rw [String.append_assoc _ "; "] at heq
        exact absurd heq
          (append_left_ne_self _ _ (append_ne_empty_left (a := "; ") _ (by decide)))
      · intro hn
        exact absurd hcond hn
    · simp [hcond]
  · intro hsch
    obtain ⟨v, hv⟩ := convertSchemaError_returns (.mk (some p) b r (.schemaError s)) p rfl s hsch
    exact ⟨v, Decode_schema_of_result _ s v (requestError_Error_parameter_ne p b r _) rfl hv⟩

/-- C17 (witness): parameter tag with value "a,b" gives "perhaps you intended '?tag=a&tag=b'". -/
theorem C17_tag_a_b :
    Decode (.requestError (.mk
        (some { Name := "tag", In := "query", Style := "form", Explode := some true }) none ""
        (.schemaError (.mk (.dyn "a,b" "\"a,b\"\n") []
          (some { Enum := [.dyn "x" "\"x\"\n", .dyn "y" "\"y\"\n"], json := "\x7b\x7d\n" })
          "enum" "JSON value is not one of the allowed values" GoError.nil)))) =
        .ok (some { Status := 400,
                    Title := "JSON value is not one of the allowed values See tag",
                    Detail := "Value 'a,b' at / must be one of: x, y; perhaps you intended '?tag=a&tag=b'",
                    Source := some { Parameter := "tag" } }, GoError.nil) ∧
      ({ Status := 400,
         Title := "JSON value is not one of the allowed values See tag",
         Detail := "Value 'a,b' at / must be one of: x, y; perhaps you intended '?tag=a&tag=b'",
         Source := some { Parameter := "tag" } } : ValidationError).Detail =
        "Value 'a,b' at / must be one of: x, y; perhaps you intended '?tag=a&tag=b'" :=
  ⟨by decide,
   (C17_suggestion_clause
    { Name := "tag", In := "query", Style := "form", Explode := some true } none ""
    (.mk (.dyn "a,b" "\"a,b\"\n") []
      (some { Enum := [.dyn "x" "\"x\"\n", .dyn "y" "\"y\"\n"], json := "\x7b\x7d\n" })
      "enum" "JSON value is not one of the allowed values" GoError.nil)
    { Enum := [.dyn "x" "\"x\"\n", .dyn "y" "\"y\"\n"], json := "\x7b\x7d\n" }
    rfl rfl rfl).1
    { Status := 400,
      Title := "JSON value is not one of the allowed values See tag",
      Detail := "Value 'a,b' at / must be one of: x, y; perhaps you intended '?tag=a&tag=b'",
      Source := some { Parameter := "tag" } }
    (by decide)⟩

/-! ## C18: results without detail and source -/

/-- C18: for every input on which `Decode` returns a result and that is not a `RequestError`
wrapping a `SchemaError`, the result has an empty detail and no source (and empty `Id` and
`Code`): only status and title are set. -/
theorem C18_only_status_and_title (err : GoError) (v : ValidationError)
    (h : Decode err = .ok (some v, GoError.nil))
    (hns : ∀ e s, err = GoError.requestError e → e.Err ≠ GoError.schemaError s) :
    v.Detail = "" ∧ v.Source = none ∧ v.Id = "" ∧ v.Code = "" := by
  by_cases hmsg : err.Error = "invalid route"
  · have hn : err ≠ GoError.nil := by
      rintro rfl; rw [Decode_nil] at h; cases h
    rw [Decode_invalid_route err hn hmsg] at h
    cases h
    exact ⟨rfl, rfl, rfl, rfl⟩
  · cases err with
    | nil => rw [Decode_nil] at h; cases h
    | ErrInvalidRequired => simp [Decode, hmsg] at h
    | foreign msg => simp [Decode, hmsg] at h
    | parseError e => simp [Decode, hmsg] at h
    | schemaError e => simp [Decode, hmsg] at h
    | routeError e =>
      rw [Decode_routeError e hmsg] at h
      cases h
      exact convertRouteError_frame e
    | requestError e =>
      have hmsg' : e.Error ≠ "invalid route" := hmsg
      cases hE : e.Err with
      | nil =>
        rw [Decode_request_nil _ hmsg' hE] at h
        cases h
        exact convertBasicRequestError_frame e
      | ErrInvalidRequired =>
        rw [Decode_request_required _ hmsg' hE] at h
        cases h
        exact convertErrInvalidRequired_frame e
      | parseError innerErr =>
        rw [Decode_request_parse _ innerErr hmsg' hE] at h
        cases hc : convertParseError e innerErr with
        | error f => rw [hc] at h; cases h
        | ok c =>
          rw [hc] at h
          cases h
          exact convertParseError_frame _ _ _ hc
      | schemaError innerErr => exact absurd hE (hns e innerErr rfl)
      | foreign msg => simp [Decode, hmsg, hE] at h
      | routeError e => simp [Decode, hmsg, hE] at h
      | requestError e => simp [Decode, hmsg, hE] at h

/-- C18 (witness): the missing required query parameter "id". -/
theorem C18_missing_required_parameter :
    Decode (.requestError (.mk
        (some { Name := "id", In := "query", Style := "", Explode := none }) none
        "value is required but missing" GoError.ErrInvalidRequired)) =
        .ok (some { Status := 400, Title := "Parameter 'id' in query is required" },
          GoError.nil) ∧
      (({ Status := 400, Title := "Parameter 'id' in query is required" } :
          ValidationError).Detail = "" ∧
        ({ Status := 400, Title := "Parameter 'id' in query is required" } :
          ValidationError).Source = none ∧
        ({ Status := 400, Title := "Parameter 'id' in query is required" } :
          ValidationError).Id = "" ∧
        ({ Status := 400, Title := "Parameter 'id' in query is required" } :
          ValidationError).Code = "") :=
  ⟨by decide,
   C18_only_status_and_title
    (.requestError (.mk
      (some { Name := "id", In := "query", Style := "", Explode := none }) none
      "value is required but missing" GoError.ErrInvalidRequired))
    { Status := 400, Title := "Parameter 'id' in query is required" }
    (by decide)
    (by
      intro e s he
      cases he
      simp [RequestError.Err])⟩

/-! ## C19: undecoded errors in the handler -/

/-- C19 (evaluation at the failing input): `ValidateRequest` fails with an error that `Decode`
does not recognize (a security requirements error); the request validation branch of the handler
does not answer 500 but reads `decodedValidationError.Status` through the nil pointer. The same
error in the route lookup branch gets the generic response. -/
theorem C19_request_branch_reads_nil_result :
    Decode (.foreign "Security requirements failed") =
        .ok (none, .foreign "Security requirements failed") ∧
      Validator GoError.nil (.foreign "Security requirements failed") =
        .error Fault.nilDereference ∧
      Validator (.foreign "Security requirements failed") GoError.nil =
        .ok (.abortWithStatusJSON 500 "internal server error") := by
  decide

/-! ## C20: one suffix per level of the origin chain -/

/-- C20: for every `RequestError` with a query parameter named p wrapping a chain of n+1 nested
schema errors, the title of a result of `Decode` is the reason of the innermost schema error
followed by n+1 copies of " See p"; and `Decode` returns a result when every level of the chain
carries its schema. -/
theorem C20_one_suffix_per_level (p : Parameter) (b : Option RequestBody) (r : String)
    (s : SchemaError) (hq : p.In = "query") :
    (∀ v, Decode (.requestError (.mk (some p) b r (.schemaError s))) =
          .ok (some v, GoError.nil) →
        v.Title = s.innermostReason ++ seeSuffixes (s.depth + 1) p.Name) ∧
      (s.hasSchemas = true →
        ∃ v, Decode (.requestError (.mk (some p) b r (.schemaError s))) =
          .ok (some v, GoError.nil)) := by
  constructor
  · intro v h
    have hc := Decode_schema_result _ s v (requestError_Error_parameter_ne p b r _) rfl h
    exact convertSchemaError_title_query (.mk (some p) b r (.schemaError s)) p rfl hq s v hc
  · intro hsch
    obtain ⟨v, hv⟩ := convertSchemaError_returns (.mk (some p) b r (.schemaError s)) p rfl s hsch
    exact ⟨v, Decode_schema_of_result _ s v (requestError_Error_parameter_ne p b r _) rfl hv⟩

/-- C20 (witness): a chain of three schema errors gives three suffixes, and neither wrapping
reason. -/
theorem C20_three_levels :
    Decode (.requestError (.mk
        (some { Name := "p", In := "query", Style := "", Explode := none }) none ""
        (.schemaError (.mk GoValue.nil [] (some { Enum := [], json := "\x7b\x7d\n" })
          "allOf" "outer reason"
          (.schemaError (.mk GoValue.nil [] (some { Enum := [], json := "\x7b\x7d\n" })
            "properties" "middle reason"
            (.schemaError (.mk GoValue.nil [] (some { Enum := [], json := "\x7b\x7d\n" })
              "type" "inner reason" GoError.nil)))))))) =
        .ok (some { Status := 400, Title := "inner reason See p See p See p",
                    Source := some { Parameter := "p" } }, GoError.nil) ∧
      ({ Status := 400, Title := "inner reason See p See p See p",
         Source := some { Parameter := "p" } } : ValidationError).Title =
        "inner reason" ++ seeSuffixes 3 "p" :=
  ⟨by decide,
   (C20_one_suffix_per_level
    { Name := "p", In := "query", Style := "", Explode := none } none ""
    (.mk GoValue.nil [] (some { Enum := [], json := "\x7b\x7d\n" })
      "allOf" "outer reason"
      (.schemaError (.mk GoValue.nil [] (some { Enum := [], json := "\x7b\x7d\n" })
        "properties" "middle reason"
        (.schemaError (.mk GoValue.nil [] (some { Enum := [], json := "\x7b\x7d\n" })
          "type" "inner reason" GoError.nil)))))
    rfl).1
    { Status := 400, Title := "inner reason See p See p See p",
      Source := some { Parameter := "p" } }
    (by decide)⟩

end GinOpenapiValidator
